import Mathlib

/-!
Verification development for the `micro-inverter` firmware
(src/firmware/src/main.cpp, auxiliary.cpp, user_data_objects.h).

Modelling conventions:
* `float32_t` values are modelled as exact rationals `ℚ`; the spec explicitly
  excludes bit-exact floating-point rounding from its scope, and every claim
  treated here is about control logic, not rounding.
* `uint8_t`/`uint32_t` counters are modelled as `ℕ`.  All thresholds compared
  against (200, 2000) are far below 2^32, so wrap-around is irrelevant to the
  claims and is not modelled.
* External collaborators declared out of scope by the spec (ADC sampling, the
  single-pole low-pass filter, the control-law object `inverter`, the PID
  objects) are modelled as per-tick inputs: each tick receives the values those
  collaborators would return on that tick (`TickInput`).
* Hardware actuation calls (`shield.power.start/stop`) are recorded as call
  counters in an `Effects` record so that claims about "exactly one stop/start
  call" can be stated.  Pure telemetry writes (`user_meas`, `user_inv_dbg`,
  `user_live`, scope channel pushes, printk, LED calls) have no feedback into
  any modelled variable and are omitted.
* `w0 = 2π·50` is irrational; the control logic only ever compares `omega`
  against `w0 ± 0.01·w0`, so the tick functions are parametrised by the
  rational value `w0` actually stored in the float constant.
-/

namespace MicroInverter

/-- Modes of `enum serial_interface_menu_mode` (auxiliary.h lines 9-15). -/
def IDLEMODE : ℕ := 0

/-- POWERMODE = 1 (auxiliary.h). -/
def POWERMODE : ℕ := 1

/-- ERRORMODE = 3 (auxiliary.h). -/
def ERRORMODE : ℕ := 3

/-- STARTUPMODE = 4 (auxiliary.h). -/
def STARTUPMODE : ℕ := 4

/-- `inverter_mode` of the external control library: grid-forming or
grid-following (only the two values used by the firmware). -/
inductive InverterMode where
  | FORMING : InverterMode
  | FOLLOWING : InverterMode
deriving DecidableEq

/-- `control_task_period = 100` µs (main.cpp line 65). -/
def control_task_period : ℕ := 100

/-- `Ts = control_task_period * 1.0e-6F` seconds (main.cpp line 154). -/
def Ts : ℚ := 1 / 10000

/-- `MAX_CURRENT = 8.0F` (main.cpp line 210). -/
def MAX_CURRENT : ℚ := 8

/-- `I1_current_offset = 0.25F` (main.cpp line 80). -/
def I1_current_offset : ℚ := 1 / 4

/-- `I2_current_offset = 0.25F` (main.cpp line 81). -/
def I2_current_offset : ℚ := 1 / 4

/-- `UDC_STARTUP = 0.0F` (main.cpp line 51). -/
def UDC_STARTUP : ℚ := 0

/-- `sync_power_tolerance = 0.01F * w0` (main.cpp line 144), as a function of
the rational modelling of `w0`. -/
def sync_power_tolerance (w0 : ℚ) : ℚ := (1 / 100) * w0

/-! ## RampAndSaturationLibrary (auxiliary.cpp lines 91-119) -/

/-- `saturate(x, min, max)` (auxiliary.cpp lines 91-100): `if (x > max) return
max; if (x < min) return min; return x;`. -/
def saturate (x mn mx : ℚ) : ℚ :=
  if x > mx then mx else if x < mn then mn else x

/-- `sign(x, tol)` (auxiliary.cpp lines 102-111): `+1` above `tol`, `-1` below
`-tol`, `0` inside the deadband. -/
def sign (x tol : ℚ) : ℚ :=
  if x > tol then 1 else if x < -tol then -1 else 0

/-- Default deadband `tol = 1e-3` of `sign` (auxiliary.h line 56). -/
def sign_default_tol : ℚ := 1 / 1000

/-- `rate_limiter(ref, value, rate)` (auxiliary.cpp lines 113-119):
`value += Ts * rate * sign(ref - value)` with the default deadband. -/
def rate_limiter (ref value rate : ℚ) : ℚ :=
  value + Ts * rate * sign (ref - value) sign_default_tol

/-- Iterate `rate_limiter` with fixed target and rate, `n` ticks from `v`. -/
def rate_limiter_iter (ref rate : ℚ) : ℕ → ℚ → ℚ
  | 0, v => v
  | n + 1, v => rate_limiter_iter ref rate n (rate_limiter ref v rate)

/-! ## Shared global state -/

/-- `command_t user_cmd` (user_data_api.h / user_data_objects.h): the
protocol-facing command record. -/
structure Command where
  mode_request : ℕ
  inverter_on : Bool
  vd_ref : ℚ
  id_ref : ℚ
  scope_dump : Bool
  scope_trigger : Bool
deriving DecidableEq

/-- The firmware globals touched by `loop_critical_task`,
`loop_application_task` and `app_apply_command`.  Only the `d` components of
the dq reference records appear: the firmware logic under verification never
reads the `q` components (they are written only at setup and consumed by the
out-of-scope control-law object). -/
structure Globals where
  pwm_enable : Bool
  Vlow_value : ℚ
  Vac_value : ℚ
  Ilow1_value : ℚ
  Ilow2_value : ℚ
  Vdc_bus : ℚ
  Iac_value : ℚ
  Vdc_bus_filt : ℚ
  Vgrid_meas : ℚ
  VN_meas : ℚ
  Igrid_meas : ℚ
  is_net_synchronized : Bool
  omega : ℚ
  local_mode : InverterMode
  delta_duty_cycle : ℚ
  duty_cycle_1 : ℚ
  duty_cycle_2 : ℚ
  duty_cycle_offset : ℚ
  boost_duty_cycle : ℚ
  boost_pwm_enable : Bool
  inverter_on : Bool
  critical_task_counter : ℕ
  sync_counter : ℕ
  desync_counter : ℕ
  power_counter : ℕ
  desync_counter_scope : ℚ
  is_downloading : Bool
  trigger : Bool
  mode : ℕ
  mode_asked : ℕ
  Vdq_ref_d : ℚ
  Idq_ref_d : ℚ
  Vdq_ref_max_d : ℚ
  Vdq_ref_min_d : ℚ
  Idq_ref_max_d : ℚ
  Idq_ref_min_d : ℚ
  user_cmd : Command
deriving DecidableEq

/-- Per-tick values delivered by the out-of-scope collaborators:
`shield.sensors.getLatestValue` (`none` is the `NO_VALUE` sentinel),
the `vHighFilter` low-pass output, `boost_pid.calculateWithReturn`,
`inverter.calculateDuty` and `inverter.getw()`. -/
structure TickInput where
  ilow1 : Option ℚ
  vlow : Option ℚ
  vac : Option ℚ
  ilow2 : Option ℚ
  vdcbus : Option ℚ
  iac : Option ℚ
  vdc_filt : ℚ
  boost_out : ℚ
  calc_duty : ℚ
  omega : ℚ
deriving DecidableEq

/-- Counters of the `shield.power.start/stop` calls issued during one tick. -/
structure Effects where
  stopAllCalls : ℕ
  stopLeg1Low : ℕ
  stopLeg2Low : ℕ
  startLeg1Low : ℕ
  startLeg2Low : ℕ
  stopLeg1High : ℕ
  stopLeg2High : ℕ
  startAllCalls : ℕ
deriving DecidableEq

/-- No actuation calls yet (start of a tick). -/
def Effects.none : Effects := ⟨0, 0, 0, 0, 0, 0, 0, 0⟩

/-! ## CommandGateway: `app_apply_command` (auxiliary.cpp lines 40-89) -/

/-- `switch (user_cmd.mode_request)` of `app_apply_command` (auxiliary.cpp
lines 42-54): cases IDLEMODE and POWERMODE latch `mode_asked`; the default
case does nothing.  The `scope.start()` call in the POWERMODE branch is an
out-of-scope capture effect. -/
def applyModeRequest (s : Globals) : Globals :=
  if s.user_cmd.mode_request = IDLEMODE then
    { s with mode_asked := IDLEMODE }
  else if s.user_cmd.mode_request = POWERMODE then
    { s with mode_asked := POWERMODE }
  else s

/-- Reference clamp with write-back of `app_apply_command` (auxiliary.cpp
lines 58-78): voltage-d reference in forming sub-mode, current-d reference in
following sub-mode. -/
def applyReferenceClamp (s : Globals) : Globals :=
  if s.local_mode = InverterMode.FORMING then
    let vd0 := s.user_cmd.vd_ref
    let vd1 := if vd0 > s.Vdq_ref_max_d then s.Vdq_ref_max_d else vd0
    let vd2 := if vd1 < s.Vdq_ref_min_d then s.Vdq_ref_min_d else vd1
    { s with Vdq_ref_d := vd2,
             user_cmd := { s.user_cmd with vd_ref := vd2 } }
  else
    let id0 := s.user_cmd.id_ref
    let id1 := if id0 > s.Idq_ref_max_d then s.Idq_ref_max_d else id0
    let id2 := if id1 < s.Idq_ref_min_d then s.Idq_ref_min_d else id1
    { s with Idq_ref_d := id2,
             user_cmd := { s.user_cmd with id_ref := id2 } }

/-- One-shot flag consumption of `app_apply_command` (auxiliary.cpp lines
80-88): the download request and the trigger-arm request, reset on use. -/
def applyScopeFlags (s : Globals) : Globals :=
  let s4 : Globals :=
    if s.user_cmd.scope_dump = true then
      { s with is_downloading := true, trigger := false,
               user_cmd := { s.user_cmd with scope_dump := false } }
    else s
  if s4.user_cmd.scope_trigger = true then
    { s4 with trigger := true,
              user_cmd := { s4.user_cmd with scope_trigger := false } }
  else s4

/-- `app_apply_command` (auxiliary.cpp lines 40-89): mode-request switch,
`inverter_on = user_cmd.inverter_on` (line 56), reference clamp, one-shot
flags, in source order. -/
def app_apply_command (s : Globals) : Globals :=
  let s1 : Globals := applyModeRequest s
  let s2 : Globals := { s1 with inverter_on := s1.user_cmd.inverter_on }
  applyScopeFlags (applyReferenceClamp s2)

/-! ## ModeStateMachine: `loop_application_task` (main.cpp lines 309-380) -/

/-- The `switch (mode)` block of `loop_application_task` (main.cpp lines
314-356): per-state transition computation.  LED calls are omitted. -/
def appTaskStateMachine (s : Globals) : Globals :=
  if s.mode = IDLEMODE then
      (if s.mode_asked = POWERMODE then { s with mode := POWERMODE } else s)
    else if s.mode = STARTUPMODE then
      -- two successive ifs (lines 323-334); both read the pre-tick globals
      let a : Globals := if s.inverter_on = false then { s with mode := POWERMODE } else s
      if s.local_mode = InverterMode.FORMING ∧ s.delta_duty_cycle > 49 / 100 then
        { a with mode := POWERMODE }
      else if s.local_mode = InverterMode.FOLLOWING ∧ s.is_net_synchronized = true then
        { a with mode := POWERMODE }
      else a
    else if s.mode = POWERMODE then
      let a : Globals := if s.mode_asked = IDLEMODE then { s with mode := IDLEMODE } else s
      if s.inverter_on = true then
        if s.local_mode = InverterMode.FORMING then
          (if s.Vdc_bus_filt ≥ UDC_STARTUP then { a with mode := STARTUPMODE } else a)
        else
          (if s.Vgrid_meas ≥ 10 ∧ s.Vdc_bus_filt ≥ UDC_STARTUP then
            { a with mode := STARTUPMODE }
          else a)
      else a
  else s  -- ERRORMODE: empty case; no transition defined

/-- `loop_application_task` (main.cpp lines 309-380): the switch, the global
return-to-idle override (lines 357-359), the capture-download consumption
(lines 362-368; the blocking stream itself is external).  The `user_live`
telemetry writes are omitted (no feedback into modelled state). -/
def loop_application_task (s : Globals) : Globals :=
  let s1 : Globals := appTaskStateMachine s
  let s2 : Globals := if s.mode_asked = IDLEMODE then { s1 with mode := IDLEMODE } else s1
  if s2.mode = IDLEMODE ∧ s2.is_downloading = true then
    { s2 with is_downloading := false }
  else s2

/-! ## RealTimeControlLoop: `loop_critical_task` (main.cpp lines 389-632)

The per-tick body is split into the source's own sections; their composition
`loop_critical_task` follows the exact source order. -/

/-- Lines 391-427: counter increment, sensor reads with the `NO_VALUE`
hold-previous semantics, current offset subtraction, derived quantities.
The `user_meas` telemetry writes are omitted. -/
def sampleMeasurements (i : TickInput) (s : Globals) : Globals :=
  let ilow1 := match i.ilow1 with
    | some v => v - I1_current_offset
    | none => s.Ilow1_value
  let vlow := i.vlow.getD s.Vlow_value
  let vac := i.vac.getD s.Vac_value
  let ilow2 := match i.ilow2 with
    | some v => v - I2_current_offset
    | none => s.Ilow2_value
  let vdc := i.vdcbus.getD s.Vdc_bus
  let iac := i.iac.getD s.Iac_value
  { s with
    critical_task_counter := s.critical_task_counter + 1,
    Ilow1_value := ilow1,
    Vlow_value := vlow,
    Vac_value := vac,
    Ilow2_value := ilow2,
    Vdc_bus := vdc,
    Iac_value := iac,
    Vdc_bus_filt := i.vdc_filt,
    Vgrid_meas := vlow - vac,
    VN_meas := (vlow + vac) / 2,
    Igrid_meas := ilow1 }

/-- Condition of the overcurrent protection (main.cpp lines 430-433), on the
already-sampled calibrated currents. -/
def overcurrentCond (s : Globals) : Prop :=
  s.Ilow1_value > MAX_CURRENT ∨ s.Ilow1_value < -MAX_CURRENT
    ∨ s.Ilow2_value > MAX_CURRENT ∨ s.Ilow2_value < -MAX_CURRENT

instance (s : Globals) : Decidable (overcurrentCond s) := by
  unfold overcurrentCond; infer_instance

/-- In-band test of the Startup lock-acquire logic (main.cpp lines 511-512):
strict inequalities. -/
def inBandStrict (w0 om : ℚ) : Prop :=
  om < w0 + sync_power_tolerance w0 ∧ om > w0 - sync_power_tolerance w0

instance (w0 om : ℚ) : Decidable (inBandStrict w0 om) := by
  unfold inBandStrict; infer_instance

/-- In-band test of the Power lock-loss logic (main.cpp lines 533-534):
non-strict inequalities. -/
def inBandClosed (w0 om : ℚ) : Prop :=
  om ≤ w0 + sync_power_tolerance w0 ∧ om ≥ w0 - sync_power_tolerance w0

instance (w0 om : ℚ) : Decidable (inBandClosed w0 om) := by
  unfold inBandClosed; infer_instance

/-- Lines 429-436: overcurrent protection, forcing `mode = ERRORMODE`. -/
def overcurrentProtection (s : Globals) : Globals :=
  if overcurrentCond s then { s with mode := ERRORMODE } else s

/-- Lines 439-454: in Idle/Error, stop all legs once (edge on `pwm_enable`)
and the two boost legs once (edge on `boost_pwm_enable`). -/
def stopActuationIfInactive (s : Globals) (e : Effects) : Globals × Effects :=
  if s.mode = IDLEMODE ∨ s.mode = ERRORMODE then
    let r1 : Globals × Effects :=
      if s.pwm_enable = true then
        ({ s with pwm_enable := false },
         { e with stopAllCalls := e.stopAllCalls + 1 })
      else (s, e)
    if r1.1.boost_pwm_enable = true then
      ({ r1.1 with boost_pwm_enable := false },
       { r1.2 with stopLeg1Low := r1.2.stopLeg1Low + 1,
                   stopLeg2Low := r1.2.stopLeg2Low + 1 })
    else r1
  else (s, e)

/-- Lines 457-472: boost stage in Startup/Power; PI output applied to both low
legs, idempotent start.  Dead-time/duty hardware writes carry no state. -/
def boostStage (i : TickInput) (s : Globals) (e : Effects) : Globals × Effects :=
  if s.mode = STARTUPMODE ∨ s.mode = POWERMODE then
    let s1 : Globals := { s with boost_duty_cycle := i.boost_out }
    if s1.boost_pwm_enable = false then
      ({ s1 with boost_pwm_enable := true },
       { e with startLeg1Low := e.startLeg1Low + 1,
                startLeg2Low := e.startLeg2Low + 1 })
    else (s1, e)
  else (s, e)

/-- Lines 475-482: stop the inverter legs when `inverter_on` is false
(edge on `pwm_enable`). -/
def stopInverterIfDisabled (s : Globals) (e : Effects) : Globals × Effects :=
  if s.inverter_on = false then
    if s.pwm_enable = true then
      ({ s with pwm_enable := false },
       { e with stopLeg1High := e.stopLeg1High + 1,
                stopLeg2High := e.stopLeg2High + 1 })
    else (s, e)
  else (s, e)

/-- Lines 486-525: startup ramp (forming) and lock-acquire debounce
(following).  In the following branch the `calculateDuty` return value is
discarded by the source (line 507) and only `getw()` feeds back. -/
def startupRampAndSync (w0 : ℚ) (i : TickInput) (s : Globals) (e : Effects) :
    Globals × Effects :=
  if s.mode = STARTUPMODE ∧ s.inverter_on = true then
    match s.local_mode with
    | InverterMode.FORMING =>
      let d1 := rate_limiter (1 / 2) s.delta_duty_cycle 50
      let d2 := if d1 > 1 / 2 then 1 / 2 else d1
      let s1 : Globals := { s with delta_duty_cycle := d2 }
      if s1.pwm_enable = false then
        ({ s1 with pwm_enable := true },
         { e with startAllCalls := e.startAllCalls + 1 })
      else (s1, e)
    | InverterMode.FOLLOWING =>
      let s1 : Globals := { s with omega := i.omega }
      if inBandStrict w0 i.omega then
        let c := s1.sync_counter + 1
        if c > 2000 then
          ({ s1 with sync_counter := 0, is_net_synchronized := true }, e)
        else ({ s1 with sync_counter := c }, e)
      else
        ({ s1 with sync_counter := 0, is_net_synchronized := false }, e)
  else (s, e)

/-- Lines 530-547 of the Power block: duty from the control law
(`delta_duty_cycle = inverter.calculateDuty(...)`), `omega = inverter.getw()`,
instantaneous in-band test into `is_net_synchronized`, and the lock-loss
counter with its trip to Idle of both `mode` and `mode_asked`. -/
def powerSyncUpdate (w0 : ℚ) (i : TickInput) (s : Globals) : Globals :=
  let s1 : Globals := { s with delta_duty_cycle := i.calc_duty, omega := i.omega }
  let sync : Bool := decide (inBandClosed w0 i.omega)
  let s2 : Globals := { s1 with is_net_synchronized := sync }
  if sync = false then
    let c := s2.desync_counter + 1
    let s2a : Globals :=
      { s2 with desync_counter := c, desync_counter_scope := (c : ℚ) }
    if c > 200 then
      { s2a with desync_counter := 0, sync_counter := 0,
                 mode_asked := IDLEMODE, mode := IDLEMODE }
    else s2a
  else s2

/-- Lines 557-573 of the Power block: `duty_cycle_offset` is seeded from the
present neutral-voltage ratio while the PWM is off, else slewed toward 0.5 and
capped there. -/
def powerOffsetUpdate (s : Globals) : Globals :=
  if s.pwm_enable = false then
    { s with duty_cycle_offset := s.VN_meas / s.Vdc_bus_filt }
  else if s.duty_cycle_offset < 1 / 2 then
    { s with duty_cycle_offset := rate_limiter (1 / 2) s.duty_cycle_offset 1 }
  else
    { s with duty_cycle_offset := 1 / 2 }

/-- Lines 576-577 of the Power block: final leg duties
`duty_cycle_1 = delta + offset`, `duty_cycle_2 = -delta + offset`. -/
def powerApplyDuty (s : Globals) : Globals :=
  { s with duty_cycle_1 := s.delta_duty_cycle + s.duty_cycle_offset,
           duty_cycle_2 := -s.delta_duty_cycle + s.duty_cycle_offset }

/-- Lines 579-586 of the Power block: in following sub-mode with the PWM not
yet active, count ticks and start all legs once the counter exceeds 2000. -/
def powerStartCheck (s : Globals) (e : Effects) : Globals × Effects :=
  if s.local_mode = InverterMode.FOLLOWING ∧ s.pwm_enable = false then
    let pc := s.power_counter + 1
    if pc > 2000 then
      ({ s with power_counter := pc, pwm_enable := true },
       { e with startAllCalls := e.startAllCalls + 1 })
    else ({ s with power_counter := pc }, e)
  else (s, e)

/-- Lines 528-593: closed-loop regulation in Power mode, composing the
sub-blocks in source order.  `setVBus`/`setVdqRef`/`setIdqRef` (lines 549-555)
and the `setDutyCycle` calls (lines 590-591) only feed out-of-scope
collaborators. -/
def powerModeRegulation (w0 : ℚ) (i : TickInput) (s : Globals) (e : Effects) :
    Globals × Effects :=
  if s.mode = POWERMODE ∧ s.inverter_on = true then
    powerStartCheck (powerApplyDuty (powerOffsetUpdate (powerSyncUpdate w0 i s))) e
  else (s, e)

/-- One tick of `loop_critical_task` (main.cpp lines 389-632), composing the
sections in source order.  The trailing telemetry block (lines 595-631)
re-reads `omega = inverter.getw()` unconditionally (line 605); all its other
assignments are telemetry-only and omitted. -/
def loop_critical_task (w0 : ℚ) (i : TickInput) (s : Globals) :
    Globals × Effects :=
  let s1 : Globals := sampleMeasurements i s
  let s2 : Globals := overcurrentProtection s1
  let r3 : Globals × Effects := stopActuationIfInactive s2 Effects.none
  let r4 : Globals × Effects := boostStage i r3.1 r3.2
  let r5 : Globals × Effects := stopInverterIfDisabled r4.1 r4.2
  let r6 : Globals × Effects := startupRampAndSync w0 i r5.1 r5.2
  let r7 : Globals × Effects := powerModeRegulation w0 i r6.1 r6.2
  ({ r7.1 with omega := i.omega }, r7.2)

/-- Iterated critical-loop ticks: `runCritical w0 inp s n` is the state after
`n` ticks, where tick `k` (0-based) receives input `inp k`. -/
def runCritical (w0 : ℚ) (inp : ℕ → TickInput) (s : Globals) : ℕ → Globals
  | 0 => s
  | n + 1 => (loop_critical_task w0 (inp n) (runCritical w0 inp s n)).1

/-! ## Concrete states and inputs used by witnesses and counterexamples

`baseState` mirrors the boot-time values of the globals (variable initialisers
in main.cpp and `setup_routine` lines 261-287).  The tick functions are
instantiated at the rational grid pulsation `w0 = 100` for concrete runs; the
±1% band is then `(99, 101)`. -/

def baseCmd : Command := ⟨0, false, 0, 0, false, false⟩

def baseState : Globals :=
  { pwm_enable := false, Vlow_value := 0, Vac_value := 0, Ilow1_value := 0,
    Ilow2_value := 0, Vdc_bus := 0, Iac_value := 0, Vdc_bus_filt := 0,
    Vgrid_meas := 0, VN_meas := 0, Igrid_meas := 0,
    is_net_synchronized := false, omega := 0,
    local_mode := InverterMode.FOLLOWING,
    delta_duty_cycle := 0, duty_cycle_1 := 0, duty_cycle_2 := 0,
    duty_cycle_offset := 0, boost_duty_cycle := 1 / 20,
    boost_pwm_enable := false, inverter_on := false,
    critical_task_counter := 0, sync_counter := 0, desync_counter := 0,
    power_counter := 0, desync_counter_scope := 0, is_downloading := false,
    trigger := false, mode := IDLEMODE, mode_asked := IDLEMODE,
    Vdq_ref_d := 0, Idq_ref_d := 0, Vdq_ref_max_d := 30,
    Vdq_ref_min_d := -1 / 10, Idq_ref_max_d := 8, Idq_ref_min_d := -1 / 10,
    user_cmd := baseCmd }

/-- Benign input: fresh zero sensor samples (calibrated currents `-1/4`),
filter output 1, in-band frequency `omega = 100` for `w0 = 100`. -/
def inBandInput : TickInput :=
  ⟨some 0, some 0, some 0, some 0, some 0, some 0, 1, 1 / 10, 0, 100⟩

/-- Like `inBandInput` but with out-of-band frequency `omega = 200`. -/
def outBandInput : TickInput :=
  ⟨some 0, some 0, some 0, some 0, some 0, some 0, 1, 1 / 10, 0, 200⟩

/-- Power-mode state with actuation active (both PWM flags set). -/
def powerActiveState : Globals :=
  { baseState with
    mode := POWERMODE, inverter_on := true, pwm_enable := true,
    boost_pwm_enable := true, duty_cycle_offset := 1 / 2 }

/-- Input whose `ILow1` sample reads 9 A (calibrated 8.75 A > 8 A). -/
def overcurrentInput : TickInput :=
  ⟨some 9, some 0, some 0, some 0, some 0, some 0, 1, 1 / 10, 0, 100⟩

/-- Power-mode tick input whose control law returns `Δduty = 2`. -/
def largeDutyInput : TickInput :=
  ⟨some 0, some 0, some 0, some 0, some 0, some 0, 1, 1 / 10, 2, 100⟩

/-- Startup/following state at the beginning of lock acquisition. -/
def startupFollowingState : Globals :=
  { baseState with mode := STARTUPMODE, inverter_on := true }

/-- Power/following state at entry into closed-loop regulation (PWM not yet
active). -/
def powerFollowingEntryState : Globals :=
  { baseState with mode := POWERMODE, inverter_on := true }

/-- Command state whose `mode_request` is the (unreachable from the gateway)
`ERRORMODE` value 3, with `mode_asked` latched at `POWERMODE`. -/
def errorRequestState : Globals :=
  { baseState with
    mode_asked := POWERMODE, user_cmd := ⟨3, true, 0, 0, false, false⟩ }

/-- State sitting in Error with Idle requested. -/
def errorIdleState : Globals := { baseState with mode := ERRORMODE }

/-- Command state carrying an over-limit `id_ref = 55` write. -/
def overLimitCmdState : Globals :=
  { baseState with user_cmd := ⟨1, true, 0, 55, false, false⟩ }

/-- Command keeping Power requested but switching the inverter off. -/
def c6cmdOff : Command := ⟨1, false, 0, 0, false, false⟩

/-- Command keeping Power requested and switching the inverter back on. -/
def c6cmdOn : Command := ⟨1, true, 0, 0, false, false⟩

/-- State after the first complete energizing sequence in Power/following:
2001 in-band ticks from the entry state (the legs were started on the last
tick). -/
def c6afterFirstStart : Globals :=
  runCritical 100 (fun _ => inBandInput) powerFollowingEntryState 2001

/-- State after the user switches the inverter off through the gateway and one
further critical tick runs (the inverter legs are stopped, `pwm_enable`
cleared). -/
def c6afterOff : Globals :=
  (loop_critical_task 100 inBandInput
    (app_apply_command { c6afterFirstStart with user_cmd := c6cmdOff })).1

/-- Re-entry state: the user switches the inverter back on through the
gateway, so Power/following closed-loop regulation is entered a second time
with the PWM not yet active. -/
def c6reentry : Globals :=
  app_apply_command { c6afterOff with user_cmd := c6cmdOn }

/-! ## Helper lemmas: command gateway phases -/

theorem applyModeRequest_user_cmd (s : Globals) :
    (applyModeRequest s).user_cmd = s.user_cmd := by
  unfold applyModeRequest; split_ifs <;> rfl

theorem applyModeRequest_local_mode (s : Globals) :
    (applyModeRequest s).local_mode = s.local_mode := by
  unfold applyModeRequest; split_ifs <;> rfl

theorem applyModeRequest_Idq_ref_max_d (s : Globals) :
    (applyModeRequest s).Idq_ref_max_d = s.Idq_ref_max_d := by
  unfold applyModeRequest; split_ifs <;> rfl

theorem applyModeRequest_Idq_ref_min_d (s : Globals) :
    (applyModeRequest s).Idq_ref_min_d = s.Idq_ref_min_d := by
  unfold applyModeRequest; split_ifs <;> rfl

theorem applyModeRequest_Vdq_ref_max_d (s : Globals) :
    (applyModeRequest s).Vdq_ref_max_d = s.Vdq_ref_max_d := by
  unfold applyModeRequest; split_ifs <;> rfl

theorem applyModeRequest_Vdq_ref_min_d (s : Globals) :
    (applyModeRequest s).Vdq_ref_min_d = s.Vdq_ref_min_d := by
  unfold applyModeRequest; split_ifs <;> rfl

theorem applyModeRequest_default (s : Globals)
    (h0 : s.user_cmd.mode_request ≠ IDLEMODE)
    (h1 : s.user_cmd.mode_request ≠ POWERMODE) :
    applyModeRequest s = s := by
  unfold applyModeRequest; rw [if_neg h0, if_neg h1]

theorem applyReferenceClamp_mode_asked (s : Globals) :
    (applyReferenceClamp s).mode_asked = s.mode_asked := by
  unfold applyReferenceClamp; split_ifs <;> rfl

theorem applyScopeFlags_mode_asked (s : Globals) :
    (applyScopeFlags s).mode_asked = s.mode_asked := by
  simp only [applyScopeFlags]; split_ifs <;> rfl

theorem applyScopeFlags_id_ref (s : Globals) :
    (applyScopeFlags s).user_cmd.id_ref = s.user_cmd.id_ref := by
  simp only [applyScopeFlags]; split_ifs <;> rfl

theorem applyScopeFlags_vd_ref (s : Globals) :
    (applyScopeFlags s).user_cmd.vd_ref = s.user_cmd.vd_ref := by
  simp only [applyScopeFlags]; split_ifs <;> rfl

theorem applyScopeFlags_Idq_ref_d (s : Globals) :
    (applyScopeFlags s).Idq_ref_d = s.Idq_ref_d := by
  simp only [applyScopeFlags]; split_ifs <;> rfl

theorem applyScopeFlags_Vdq_ref_d (s : Globals) :
    (applyScopeFlags s).Vdq_ref_d = s.Vdq_ref_d := by
  simp only [applyScopeFlags]; split_ifs <;> rfl

theorem applyReferenceClamp_following (s : Globals)
    (hloc : s.local_mode = InverterMode.FOLLOWING) :
    (applyReferenceClamp s).Idq_ref_d
        = (if (if s.user_cmd.id_ref > s.Idq_ref_max_d then s.Idq_ref_max_d
               else s.user_cmd.id_ref) < s.Idq_ref_min_d then s.Idq_ref_min_d
           else (if s.user_cmd.id_ref > s.Idq_ref_max_d then s.Idq_ref_max_d
                 else s.user_cmd.id_ref)) ∧
    (applyReferenceClamp s).user_cmd.id_ref = (applyReferenceClamp s).Idq_ref_d := by
  have hne : s.local_mode ≠ InverterMode.FORMING := by rw [hloc]; decide
  unfold applyReferenceClamp
  rw [if_neg hne]
  exact ⟨rfl, rfl⟩

theorem applyReferenceClamp_forming (s : Globals)
    (hloc : s.local_mode = InverterMode.FORMING) :
    (applyReferenceClamp s).Vdq_ref_d
        = (if (if s.user_cmd.vd_ref > s.Vdq_ref_max_d then s.Vdq_ref_max_d
               else s.user_cmd.vd_ref) < s.Vdq_ref_min_d then s.Vdq_ref_min_d
           else (if s.user_cmd.vd_ref > s.Vdq_ref_max_d then s.Vdq_ref_max_d
                 else s.user_cmd.vd_ref)) ∧
    (applyReferenceClamp s).user_cmd.vd_ref = (applyReferenceClamp s).Vdq_ref_d := by
  unfold applyReferenceClamp
  rw [if_pos hloc]
  exact ⟨rfl, rfl⟩

/-! ## Helper lemmas: application-task state machine -/

theorem appTaskStateMachine_error (s : Globals) (h : s.mode = ERRORMODE) :
    appTaskStateMachine s = s := by
  unfold appTaskStateMachine
  simp [h, ERRORMODE, IDLEMODE, POWERMODE, STARTUPMODE]

/-! ## Helper lemmas: critical-task phases and tick compositions -/

/-! ## Helper lemmas: critical-task phases -/

theorem sampleMeasurements_mode (i : TickInput) (s : Globals) :
    (sampleMeasurements i s).mode = s.mode := rfl

theorem sampleMeasurements_mode_asked (i : TickInput) (s : Globals) :
    (sampleMeasurements i s).mode_asked = s.mode_asked := rfl

theorem sampleMeasurements_pwm_enable (i : TickInput) (s : Globals) :
    (sampleMeasurements i s).pwm_enable = s.pwm_enable := rfl

theorem sampleMeasurements_boost_pwm_enable (i : TickInput) (s : Globals) :
    (sampleMeasurements i s).boost_pwm_enable = s.boost_pwm_enable := rfl

theorem sampleMeasurements_inverter_on (i : TickInput) (s : Globals) :
    (sampleMeasurements i s).inverter_on = s.inverter_on := rfl

theorem sampleMeasurements_local_mode (i : TickInput) (s : Globals) :
    (sampleMeasurements i s).local_mode = s.local_mode := rfl

theorem sampleMeasurements_sync_counter (i : TickInput) (s : Globals) :
    (sampleMeasurements i s).sync_counter = s.sync_counter := rfl

theorem sampleMeasurements_desync_counter (i : TickInput) (s : Globals) :
    (sampleMeasurements i s).desync_counter = s.desync_counter := rfl

theorem sampleMeasurements_power_counter (i : TickInput) (s : Globals) :
    (sampleMeasurements i s).power_counter = s.power_counter := rfl

theorem sampleMeasurements_is_net_synchronized (i : TickInput) (s : Globals) :
    (sampleMeasurements i s).is_net_synchronized = s.is_net_synchronized := rfl

theorem sampleMeasurements_delta_duty_cycle (i : TickInput) (s : Globals) :
    (sampleMeasurements i s).delta_duty_cycle = s.delta_duty_cycle := rfl

theorem sampleMeasurements_duty_cycle_offset (i : TickInput) (s : Globals) :
    (sampleMeasurements i s).duty_cycle_offset = s.duty_cycle_offset := rfl

theorem sampleMeasurements_Vdc_bus_filt (i : TickInput) (s : Globals) :
    (sampleMeasurements i s).Vdc_bus_filt = i.vdc_filt := rfl

theorem overcurrentProtection_not (s : Globals) (h : ¬ overcurrentCond s) :
    overcurrentProtection s = s := by
  unfold overcurrentProtection; rw [if_neg h]

theorem overcurrentProtection_hit (s : Globals) (h : overcurrentCond s) :
    overcurrentProtection s = { s with mode := ERRORMODE } := by
  unfold overcurrentProtection; rw [if_pos h]

theorem stopActuationIfInactive_skip (s : Globals) (e : Effects)
    (h1 : s.mode ≠ IDLEMODE) (h2 : s.mode ≠ ERRORMODE) :
    stopActuationIfInactive s e = (s, e) := by
  unfold stopActuationIfInactive
  rw [if_neg (by simp [h1, h2])]

theorem stopActuationIfInactive_active_both (s : Globals) (e : Effects)
    (h : s.mode = IDLEMODE ∨ s.mode = ERRORMODE)
    (hp : s.pwm_enable = true) (hb : s.boost_pwm_enable = true) :
    stopActuationIfInactive s e
      = ({ s with pwm_enable := false, boost_pwm_enable := false },
         { e with stopAllCalls := e.stopAllCalls + 1,
                  stopLeg1Low := e.stopLeg1Low + 1,
                  stopLeg2Low := e.stopLeg2Low + 1 }) := by
  unfold stopActuationIfInactive
  rw [if_pos h]
  simp [hp, hb]

theorem stopActuationIfInactive_active_stopped (s : Globals) (e : Effects)
    (hp : s.pwm_enable = false) (hb : s.boost_pwm_enable = false) :
    stopActuationIfInactive s e = (s, e) := by
  unfold stopActuationIfInactive
  split_ifs <;> simp_all

theorem boostStage_active_on (i : TickInput) (s : Globals) (e : Effects)
    (hm : s.mode = STARTUPMODE ∨ s.mode = POWERMODE)
    (hb : s.boost_pwm_enable = true) :
    boostStage i s e = ({ s with boost_duty_cycle := i.boost_out }, e) := by
  unfold boostStage
  rw [if_pos hm]
  simp [hb]

theorem boostStage_active_off (i : TickInput) (s : Globals) (e : Effects)
    (hm : s.mode = STARTUPMODE ∨ s.mode = POWERMODE)
    (hb : s.boost_pwm_enable = false) :
    boostStage i s e
      = ({ s with boost_duty_cycle := i.boost_out, boost_pwm_enable := true },
         { e with startLeg1Low := e.startLeg1Low + 1,
                  startLeg2Low := e.startLeg2Low + 1 }) := by
  unfold boostStage
  rw [if_pos hm]
  simp [hb]

theorem boostStage_skip (i : TickInput) (s : Globals) (e : Effects)
    (h1 : s.mode ≠ STARTUPMODE) (h2 : s.mode ≠ POWERMODE) :
    boostStage i s e = (s, e) := by
  unfold boostStage
  rw [if_neg (by simp [h1, h2])]

theorem stopInverterIfDisabled_enabled (s : Globals) (e : Effects)
    (h : s.inverter_on = true) :
    stopInverterIfDisabled s e = (s, e) := by
  unfold stopInverterIfDisabled
  rw [if_neg (by simp [h])]

theorem stopInverterIfDisabled_disabled_active (s : Globals) (e : Effects)
    (h : s.inverter_on = false) (hp : s.pwm_enable = true) :
    stopInverterIfDisabled s e
      = ({ s with pwm_enable := false },
         { e with stopLeg1High := e.stopLeg1High + 1,
                  stopLeg2High := e.stopLeg2High + 1 }) := by
  unfold stopInverterIfDisabled
  rw [if_pos (by simp [h])]
  simp [hp]

theorem stopInverterIfDisabled_disabled_stopped (s : Globals) (e : Effects)
    (h : s.inverter_on = false) (hp : s.pwm_enable = false) :
    stopInverterIfDisabled s e = (s, e) := by
  unfold stopInverterIfDisabled
  rw [if_pos (by simp [h])]
  simp [hp]

theorem startupRampAndSync_notStartup (w0 : ℚ) (i : TickInput) (s : Globals)
    (e : Effects) (h : s.mode ≠ STARTUPMODE) :
    startupRampAndSync w0 i s e = (s, e) := by
  unfold startupRampAndSync
  rw [if_neg (by simp [h])]

theorem powerModeRegulation_notPower (w0 : ℚ) (i : TickInput) (s : Globals)
    (e : Effects) (h : s.mode ≠ POWERMODE) :
    powerModeRegulation w0 i s e = (s, e) := by
  unfold powerModeRegulation
  rw [if_neg (by simp [h])]



theorem startupRampAndSync_fst_mode (w0 : ℚ) (i : TickInput) (s : Globals)
    (e : Effects) : (startupRampAndSync w0 i s e).1.mode = s.mode := by
  cases h : s.local_mode <;>
    simp only [startupRampAndSync, h] <;> split_ifs <;> rfl

theorem startupRampAndSync_following_inband (w0 : ℚ) (i : TickInput)
    (s : Globals) (e : Effects)
    (hm : s.mode = STARTUPMODE) (hon : s.inverter_on = true)
    (hloc : s.local_mode = InverterMode.FOLLOWING)
    (hband : inBandStrict w0 i.omega) :
    startupRampAndSync w0 i s e
      = (if s.sync_counter + 1 > 2000 then
           ({ s with omega := i.omega, sync_counter := 0,
                     is_net_synchronized := true }, e)
         else
           ({ s with omega := i.omega,
                     sync_counter := s.sync_counter + 1 }, e)) := by
  simp only [startupRampAndSync, hloc]
  rw [if_pos ⟨hm, hon⟩]
  simp only [if_pos hband]
  try split_ifs <;> first | rfl | omega

theorem startupRampAndSync_following_outband (w0 : ℚ) (i : TickInput)
    (s : Globals) (e : Effects)
    (hm : s.mode = STARTUPMODE) (hon : s.inverter_on = true)
    (hloc : s.local_mode = InverterMode.FOLLOWING)
    (hband : ¬ inBandStrict w0 i.omega) :
    startupRampAndSync w0 i s e
      = ({ s with omega := i.omega, sync_counter := 0,
                  is_net_synchronized := false }, e) := by
  simp only [startupRampAndSync, hloc]
  rw [if_pos ⟨hm, hon⟩]
  simp only [if_neg hband]

theorem powerSyncUpdate_inband (w0 : ℚ) (i : TickInput) (s : Globals)
    (hband : inBandClosed w0 i.omega) :
    powerSyncUpdate w0 i s
      = { s with delta_duty_cycle := i.calc_duty, omega := i.omega,
                 is_net_synchronized := true } := by
  have hs : decide (inBandClosed w0 i.omega) = true := decide_eq_true hband
  simp only [powerSyncUpdate, hs]
  split_ifs <;> first | rfl | simp_all

theorem powerSyncUpdate_outband_low (w0 : ℚ) (i : TickInput) (s : Globals)
    (hband : ¬ inBandClosed w0 i.omega) (hle : s.desync_counter + 1 ≤ 200) :
    powerSyncUpdate w0 i s
      = { s with delta_duty_cycle := i.calc_duty, omega := i.omega,
                 is_net_synchronized := false,
                 desync_counter := s.desync_counter + 1,
                 desync_counter_scope := ((s.desync_counter + 1 : ℕ) : ℚ) } := by
  have hs : decide (inBandClosed w0 i.omega) = false := decide_eq_false hband
  simp only [powerSyncUpdate, hs]
  split_ifs <;> first | rfl | omega | simp_all

theorem powerSyncUpdate_outband_trip (w0 : ℚ) (i : TickInput) (s : Globals)
    (hband : ¬ inBandClosed w0 i.omega) (hgt : s.desync_counter + 1 > 200) :
    powerSyncUpdate w0 i s
      = { s with delta_duty_cycle := i.calc_duty, omega := i.omega,
                 is_net_synchronized := false,
                 desync_counter := 0, sync_counter := 0,
                 desync_counter_scope := ((s.desync_counter + 1 : ℕ) : ℚ),
                 mode_asked := IDLEMODE, mode := IDLEMODE } := by
  have hs : decide (inBandClosed w0 i.omega) = false := decide_eq_false hband
  simp only [powerSyncUpdate, hs]
  split_ifs <;> first | rfl | omega | simp_all

theorem powerOffsetUpdate_fields (s : Globals) :
    (powerOffsetUpdate s).mode = s.mode ∧
    (powerOffsetUpdate s).mode_asked = s.mode_asked ∧
    (powerOffsetUpdate s).pwm_enable = s.pwm_enable ∧
    (powerOffsetUpdate s).inverter_on = s.inverter_on ∧
    (powerOffsetUpdate s).local_mode = s.local_mode ∧
    (powerOffsetUpdate s).sync_counter = s.sync_counter ∧
    (powerOffsetUpdate s).desync_counter = s.desync_counter ∧
    (powerOffsetUpdate s).power_counter = s.power_counter ∧
    (powerOffsetUpdate s).is_net_synchronized = s.is_net_synchronized ∧
    (powerOffsetUpdate s).delta_duty_cycle = s.delta_duty_cycle ∧
    (powerOffsetUpdate s).boost_pwm_enable = s.boost_pwm_enable := by
  unfold powerOffsetUpdate
  split_ifs <;> exact ⟨rfl, rfl, rfl, rfl, rfl, rfl, rfl, rfl, rfl, rfl, rfl⟩

theorem powerOffsetUpdate_off (s : Globals) (hp : s.pwm_enable = false) :
    powerOffsetUpdate s
      = { s with duty_cycle_offset := s.VN_meas / s.Vdc_bus_filt } := by
  unfold powerOffsetUpdate
  rw [if_pos hp]

theorem powerStartCheck_skip (s : Globals) (e : Effects)
    (h : ¬ (s.local_mode = InverterMode.FOLLOWING ∧ s.pwm_enable = false)) :
    powerStartCheck s e = (s, e) := by
  unfold powerStartCheck
  rw [if_neg h]

theorem powerStartCheck_count (s : Globals) (e : Effects)
    (hloc : s.local_mode = InverterMode.FOLLOWING) (hp : s.pwm_enable = false)
    (hle : s.power_counter + 1 ≤ 2000) :
    powerStartCheck s e = ({ s with power_counter := s.power_counter + 1 }, e) := by
  unfold powerStartCheck
  rw [if_pos ⟨hloc, hp⟩]
  rw [if_neg (by omega)]

theorem powerStartCheck_start (s : Globals) (e : Effects)
    (hloc : s.local_mode = InverterMode.FOLLOWING) (hp : s.pwm_enable = false)
    (hgt : s.power_counter + 1 > 2000) :
    powerStartCheck s e
      = ({ s with power_counter := s.power_counter + 1, pwm_enable := true },
         { e with startAllCalls := e.startAllCalls + 1 }) := by
  unfold powerStartCheck
  rw [if_pos ⟨hloc, hp⟩]
  rw [if_pos hgt]

theorem powerModeRegulation_active (w0 : ℚ) (i : TickInput) (s : Globals)
    (e : Effects) (hm : s.mode = POWERMODE) (hon : s.inverter_on = true) :
    powerModeRegulation w0 i s e
      = powerStartCheck (powerApplyDuty (powerOffsetUpdate (powerSyncUpdate w0 i s))) e := by
  unfold powerModeRegulation
  rw [if_pos ⟨hm, hon⟩]

theorem boostStage_fst_mode (i : TickInput) (s : Globals) (e : Effects) :
    (boostStage i s e).1.mode = s.mode := by
  simp only [boostStage]; split_ifs <;> rfl

theorem boostStage_fst_mode_asked (i : TickInput) (s : Globals) (e : Effects) :
    (boostStage i s e).1.mode_asked = s.mode_asked := by
  simp only [boostStage]; split_ifs <;> rfl

theorem boostStage_fst_pwm_enable (i : TickInput) (s : Globals) (e : Effects) :
    (boostStage i s e).1.pwm_enable = s.pwm_enable := by
  simp only [boostStage]; split_ifs <;> rfl

theorem boostStage_fst_inverter_on (i : TickInput) (s : Globals) (e : Effects) :
    (boostStage i s e).1.inverter_on = s.inverter_on := by
  simp only [boostStage]; split_ifs <;> rfl

theorem boostStage_fst_local_mode (i : TickInput) (s : Globals) (e : Effects) :
    (boostStage i s e).1.local_mode = s.local_mode := by
  simp only [boostStage]; split_ifs <;> rfl

theorem boostStage_fst_sync_counter (i : TickInput) (s : Globals) (e : Effects) :
    (boostStage i s e).1.sync_counter = s.sync_counter := by
  simp only [boostStage]; split_ifs <;> rfl

theorem boostStage_fst_desync_counter (i : TickInput) (s : Globals) (e : Effects) :
    (boostStage i s e).1.desync_counter = s.desync_counter := by
  simp only [boostStage]; split_ifs <;> rfl

theorem boostStage_fst_power_counter (i : TickInput) (s : Globals) (e : Effects) :
    (boostStage i s e).1.power_counter = s.power_counter := by
  simp only [boostStage]; split_ifs <;> rfl

theorem boostStage_fst_is_net_synchronized (i : TickInput) (s : Globals) (e : Effects) :
    (boostStage i s e).1.is_net_synchronized = s.is_net_synchronized := by
  simp only [boostStage]; split_ifs <;> rfl

theorem boostStage_fst_delta_duty_cycle (i : TickInput) (s : Globals) (e : Effects) :
    (boostStage i s e).1.delta_duty_cycle = s.delta_duty_cycle := by
  simp only [boostStage]; split_ifs <;> rfl

theorem boostStage_fst_duty_cycle_offset (i : TickInput) (s : Globals) (e : Effects) :
    (boostStage i s e).1.duty_cycle_offset = s.duty_cycle_offset := by
  simp only [boostStage]; split_ifs <;> rfl

theorem boostStage_fst_duty_cycle_1 (i : TickInput) (s : Globals) (e : Effects) :
    (boostStage i s e).1.duty_cycle_1 = s.duty_cycle_1 := by
  simp only [boostStage]; split_ifs <;> rfl

theorem boostStage_fst_duty_cycle_2 (i : TickInput) (s : Globals) (e : Effects) :
    (boostStage i s e).1.duty_cycle_2 = s.duty_cycle_2 := by
  simp only [boostStage]; split_ifs <;> rfl

theorem boostStage_fst_VN_meas (i : TickInput) (s : Globals) (e : Effects) :
    (boostStage i s e).1.VN_meas = s.VN_meas := by
  simp only [boostStage]; split_ifs <;> rfl

theorem boostStage_fst_Vdc_bus_filt (i : TickInput) (s : Globals) (e : Effects) :
    (boostStage i s e).1.Vdc_bus_filt = s.Vdc_bus_filt := by
  simp only [boostStage]; split_ifs <;> rfl

theorem boostStage_fst_omega (i : TickInput) (s : Globals) (e : Effects) :
    (boostStage i s e).1.omega = s.omega := by
  simp only [boostStage]; split_ifs <;> rfl

theorem boostStage_fst_Ilow1_value (i : TickInput) (s : Globals) (e : Effects) :
    (boostStage i s e).1.Ilow1_value = s.Ilow1_value := by
  simp only [boostStage]; split_ifs <;> rfl

theorem boostStage_fst_Ilow2_value (i : TickInput) (s : Globals) (e : Effects) :
    (boostStage i s e).1.Ilow2_value = s.Ilow2_value := by
  simp only [boostStage]; split_ifs <;> rfl

theorem boostStage_snd_stopAllCalls (i : TickInput) (s : Globals) (e : Effects) :
    (boostStage i s e).2.stopAllCalls = e.stopAllCalls := by
  simp only [boostStage]; split_ifs <;> rfl

theorem boostStage_snd_stopLeg1Low (i : TickInput) (s : Globals) (e : Effects) :
    (boostStage i s e).2.stopLeg1Low = e.stopLeg1Low := by
  simp only [boostStage]; split_ifs <;> rfl

theorem boostStage_snd_stopLeg2Low (i : TickInput) (s : Globals) (e : Effects) :
    (boostStage i s e).2.stopLeg2Low = e.stopLeg2Low := by
  simp only [boostStage]; split_ifs <;> rfl

theorem boostStage_snd_stopLeg1High (i : TickInput) (s : Globals) (e : Effects) :
    (boostStage i s e).2.stopLeg1High = e.stopLeg1High := by
  simp only [boostStage]; split_ifs <;> rfl

theorem boostStage_snd_stopLeg2High (i : TickInput) (s : Globals) (e : Effects) :
    (boostStage i s e).2.stopLeg2High = e.stopLeg2High := by
  simp only [boostStage]; split_ifs <;> rfl

theorem boostStage_snd_startAllCalls (i : TickInput) (s : Globals) (e : Effects) :
    (boostStage i s e).2.startAllCalls = e.startAllCalls := by
  simp only [boostStage]; split_ifs <;> rfl

theorem powerStartCheck_fst_mode (s : Globals) (e : Effects) :
    (powerStartCheck s e).1.mode = s.mode := by
  simp only [powerStartCheck]; split_ifs <;> rfl

theorem powerStartCheck_fst_mode_asked (s : Globals) (e : Effects) :
    (powerStartCheck s e).1.mode_asked = s.mode_asked := by
  simp only [powerStartCheck]; split_ifs <;> rfl

theorem powerStartCheck_fst_desync_counter (s : Globals) (e : Effects) :
    (powerStartCheck s e).1.desync_counter = s.desync_counter := by
  simp only [powerStartCheck]; split_ifs <;> rfl

theorem powerStartCheck_fst_sync_counter (s : Globals) (e : Effects) :
    (powerStartCheck s e).1.sync_counter = s.sync_counter := by
  simp only [powerStartCheck]; split_ifs <;> rfl

theorem powerStartCheck_fst_is_net_synchronized (s : Globals) (e : Effects) :
    (powerStartCheck s e).1.is_net_synchronized = s.is_net_synchronized := by
  simp only [powerStartCheck]; split_ifs <;> rfl

theorem powerStartCheck_fst_duty_cycle_1 (s : Globals) (e : Effects) :
    (powerStartCheck s e).1.duty_cycle_1 = s.duty_cycle_1 := by
  simp only [powerStartCheck]; split_ifs <;> rfl

theorem powerStartCheck_fst_duty_cycle_2 (s : Globals) (e : Effects) :
    (powerStartCheck s e).1.duty_cycle_2 = s.duty_cycle_2 := by
  simp only [powerStartCheck]; split_ifs <;> rfl

theorem powerStartCheck_fst_duty_cycle_offset (s : Globals) (e : Effects) :
    (powerStartCheck s e).1.duty_cycle_offset = s.duty_cycle_offset := by
  simp only [powerStartCheck]; split_ifs <;> rfl

theorem powerStartCheck_fst_delta_duty_cycle (s : Globals) (e : Effects) :
    (powerStartCheck s e).1.delta_duty_cycle = s.delta_duty_cycle := by
  simp only [powerStartCheck]; split_ifs <;> rfl

theorem powerStartCheck_fst_inverter_on (s : Globals) (e : Effects) :
    (powerStartCheck s e).1.inverter_on = s.inverter_on := by
  simp only [powerStartCheck]; split_ifs <;> rfl

theorem powerStartCheck_fst_local_mode (s : Globals) (e : Effects) :
    (powerStartCheck s e).1.local_mode = s.local_mode := by
  simp only [powerStartCheck]; split_ifs <;> rfl

theorem powerStartCheck_fst_omega (s : Globals) (e : Effects) :
    (powerStartCheck s e).1.omega = s.omega := by
  simp only [powerStartCheck]; split_ifs <;> rfl

theorem powerStartCheck_fst_boost_pwm_enable (s : Globals) (e : Effects) :
    (powerStartCheck s e).1.boost_pwm_enable = s.boost_pwm_enable := by
  simp only [powerStartCheck]; split_ifs <;> rfl

theorem powerStartCheck_fst_VN_meas (s : Globals) (e : Effects) :
    (powerStartCheck s e).1.VN_meas = s.VN_meas := by
  simp only [powerStartCheck]; split_ifs <;> rfl

theorem powerStartCheck_fst_Vdc_bus_filt (s : Globals) (e : Effects) :
    (powerStartCheck s e).1.Vdc_bus_filt = s.Vdc_bus_filt := by
  simp only [powerStartCheck]; split_ifs <;> rfl

theorem powerStartCheck_snd_stopAllCalls (s : Globals) (e : Effects) :
    (powerStartCheck s e).2.stopAllCalls = e.stopAllCalls := by
  simp only [powerStartCheck]; split_ifs <;> rfl

theorem powerStartCheck_snd_stopLeg1Low (s : Globals) (e : Effects) :
    (powerStartCheck s e).2.stopLeg1Low = e.stopLeg1Low := by
  simp only [powerStartCheck]; split_ifs <;> rfl

theorem powerStartCheck_snd_stopLeg2Low (s : Globals) (e : Effects) :
    (powerStartCheck s e).2.stopLeg2Low = e.stopLeg2Low := by
  simp only [powerStartCheck]; split_ifs <;> rfl

theorem powerStartCheck_snd_stopLeg1High (s : Globals) (e : Effects) :
    (powerStartCheck s e).2.stopLeg1High = e.stopLeg1High := by
  simp only [powerStartCheck]; split_ifs <;> rfl

theorem powerStartCheck_snd_stopLeg2High (s : Globals) (e : Effects) :
    (powerStartCheck s e).2.stopLeg2High = e.stopLeg2High := by
  simp only [powerStartCheck]; split_ifs <;> rfl

theorem powerStartCheck_snd_startLeg1Low (s : Globals) (e : Effects) :
    (powerStartCheck s e).2.startLeg1Low = e.startLeg1Low := by
  simp only [powerStartCheck]; split_ifs <;> rfl

theorem powerStartCheck_snd_startLeg2Low (s : Globals) (e : Effects) :
    (powerStartCheck s e).2.startLeg2Low = e.startLeg2Low := by
  simp only [powerStartCheck]; split_ifs <;> rfl

theorem powerApplyDuty_mode (s : Globals) :
    (powerApplyDuty s).mode = s.mode := rfl

theorem powerApplyDuty_mode_asked (s : Globals) :
    (powerApplyDuty s).mode_asked = s.mode_asked := rfl

theorem powerApplyDuty_desync_counter (s : Globals) :
    (powerApplyDuty s).desync_counter = s.desync_counter := rfl

theorem powerApplyDuty_sync_counter (s : Globals) :
    (powerApplyDuty s).sync_counter = s.sync_counter := rfl

theorem powerApplyDuty_is_net_synchronized (s : Globals) :
    (powerApplyDuty s).is_net_synchronized = s.is_net_synchronized := rfl

theorem powerApplyDuty_duty_cycle_offset (s : Globals) :
    (powerApplyDuty s).duty_cycle_offset = s.duty_cycle_offset := rfl

theorem powerApplyDuty_delta_duty_cycle (s : Globals) :
    (powerApplyDuty s).delta_duty_cycle = s.delta_duty_cycle := rfl

theorem powerApplyDuty_pwm_enable (s : Globals) :
    (powerApplyDuty s).pwm_enable = s.pwm_enable := rfl

theorem powerApplyDuty_power_counter (s : Globals) :
    (powerApplyDuty s).power_counter = s.power_counter := rfl

theorem powerApplyDuty_inverter_on (s : Globals) :
    (powerApplyDuty s).inverter_on = s.inverter_on := rfl

theorem powerApplyDuty_local_mode (s : Globals) :
    (powerApplyDuty s).local_mode = s.local_mode := rfl

theorem powerApplyDuty_omega (s : Globals) :
    (powerApplyDuty s).omega = s.omega := rfl

theorem powerApplyDuty_boost_pwm_enable (s : Globals) :
    (powerApplyDuty s).boost_pwm_enable = s.boost_pwm_enable := rfl

theorem powerApplyDuty_VN_meas (s : Globals) :
    (powerApplyDuty s).VN_meas = s.VN_meas := rfl

theorem powerApplyDuty_Vdc_bus_filt (s : Globals) :
    (powerApplyDuty s).Vdc_bus_filt = s.Vdc_bus_filt := rfl

theorem powerOffsetUpdate_keeps_mode (s : Globals) :
    (powerOffsetUpdate s).mode = s.mode := by
  unfold powerOffsetUpdate; split_ifs <;> rfl

theorem powerOffsetUpdate_keeps_mode_asked (s : Globals) :
    (powerOffsetUpdate s).mode_asked = s.mode_asked := by
  unfold powerOffsetUpdate; split_ifs <;> rfl

theorem powerOffsetUpdate_keeps_pwm_enable (s : Globals) :
    (powerOffsetUpdate s).pwm_enable = s.pwm_enable := by
  unfold powerOffsetUpdate; split_ifs <;> rfl

theorem powerOffsetUpdate_keeps_inverter_on (s : Globals) :
    (powerOffsetUpdate s).inverter_on = s.inverter_on := by
  unfold powerOffsetUpdate; split_ifs <;> rfl

theorem powerOffsetUpdate_keeps_local_mode (s : Globals) :
    (powerOffsetUpdate s).local_mode = s.local_mode := by
  unfold powerOffsetUpdate; split_ifs <;> rfl

theorem powerOffsetUpdate_keeps_sync_counter (s : Globals) :
    (powerOffsetUpdate s).sync_counter = s.sync_counter := by
  unfold powerOffsetUpdate; split_ifs <;> rfl

theorem powerOffsetUpdate_keeps_desync_counter (s : Globals) :
    (powerOffsetUpdate s).desync_counter = s.desync_counter := by
  unfold powerOffsetUpdate; split_ifs <;> rfl

theorem powerOffsetUpdate_keeps_power_counter (s : Globals) :
    (powerOffsetUpdate s).power_counter = s.power_counter := by
  unfold powerOffsetUpdate; split_ifs <;> rfl

theorem powerOffsetUpdate_keeps_is_net_synchronized (s : Globals) :
    (powerOffsetUpdate s).is_net_synchronized = s.is_net_synchronized := by
  unfold powerOffsetUpdate; split_ifs <;> rfl

theorem powerOffsetUpdate_keeps_delta_duty_cycle (s : Globals) :
    (powerOffsetUpdate s).delta_duty_cycle = s.delta_duty_cycle := by
  unfold powerOffsetUpdate; split_ifs <;> rfl

theorem powerOffsetUpdate_keeps_boost_pwm_enable (s : Globals) :
    (powerOffsetUpdate s).boost_pwm_enable = s.boost_pwm_enable := by
  unfold powerOffsetUpdate; split_ifs <;> rfl

theorem powerOffsetUpdate_keeps_omega (s : Globals) :
    (powerOffsetUpdate s).omega = s.omega := by
  unfold powerOffsetUpdate; split_ifs <;> rfl

theorem powerOffsetUpdate_keeps_duty_cycle_1 (s : Globals) :
    (powerOffsetUpdate s).duty_cycle_1 = s.duty_cycle_1 := by
  unfold powerOffsetUpdate; split_ifs <;> rfl

theorem powerOffsetUpdate_keeps_duty_cycle_2 (s : Globals) :
    (powerOffsetUpdate s).duty_cycle_2 = s.duty_cycle_2 := by
  unfold powerOffsetUpdate; split_ifs <;> rfl

theorem powerOffsetUpdate_keeps_VN_meas (s : Globals) :
    (powerOffsetUpdate s).VN_meas = s.VN_meas := by
  unfold powerOffsetUpdate; split_ifs <;> rfl

theorem powerOffsetUpdate_keeps_Vdc_bus_filt (s : Globals) :
    (powerOffsetUpdate s).Vdc_bus_filt = s.Vdc_bus_filt := by
  unfold powerOffsetUpdate; split_ifs <;> rfl

theorem powerSyncUpdate_keeps_pwm_enable (w0 : ℚ) (i : TickInput) (s : Globals) :
    (powerSyncUpdate w0 i s).pwm_enable = s.pwm_enable := by
  simp only [powerSyncUpdate]; split_ifs <;> rfl

theorem powerSyncUpdate_keeps_local_mode (w0 : ℚ) (i : TickInput) (s : Globals) :
    (powerSyncUpdate w0 i s).local_mode = s.local_mode := by
  simp only [powerSyncUpdate]; split_ifs <;> rfl

theorem powerSyncUpdate_keeps_inverter_on (w0 : ℚ) (i : TickInput) (s : Globals) :
    (powerSyncUpdate w0 i s).inverter_on = s.inverter_on := by
  simp only [powerSyncUpdate]; split_ifs <;> rfl

theorem powerSyncUpdate_keeps_power_counter (w0 : ℚ) (i : TickInput) (s : Globals) :
    (powerSyncUpdate w0 i s).power_counter = s.power_counter := by
  simp only [powerSyncUpdate]; split_ifs <;> rfl

theorem powerSyncUpdate_keeps_duty_cycle_offset (w0 : ℚ) (i : TickInput) (s : Globals) :
    (powerSyncUpdate w0 i s).duty_cycle_offset = s.duty_cycle_offset := by
  simp only [powerSyncUpdate]; split_ifs <;> rfl

theorem powerSyncUpdate_keeps_duty_cycle_1 (w0 : ℚ) (i : TickInput) (s : Globals) :
    (powerSyncUpdate w0 i s).duty_cycle_1 = s.duty_cycle_1 := by
  simp only [powerSyncUpdate]; split_ifs <;> rfl

theorem powerSyncUpdate_keeps_duty_cycle_2 (w0 : ℚ) (i : TickInput) (s : Globals) :
    (powerSyncUpdate w0 i s).duty_cycle_2 = s.duty_cycle_2 := by
  simp only [powerSyncUpdate]; split_ifs <;> rfl

theorem powerSyncUpdate_keeps_VN_meas (w0 : ℚ) (i : TickInput) (s : Globals) :
    (powerSyncUpdate w0 i s).VN_meas = s.VN_meas := by
  simp only [powerSyncUpdate]; split_ifs <;> rfl

theorem powerSyncUpdate_keeps_Vdc_bus_filt (w0 : ℚ) (i : TickInput) (s : Globals) :
    (powerSyncUpdate w0 i s).Vdc_bus_filt = s.Vdc_bus_filt := by
  simp only [powerSyncUpdate]; split_ifs <;> rfl

theorem powerSyncUpdate_keeps_boost_pwm_enable (w0 : ℚ) (i : TickInput) (s : Globals) :
    (powerSyncUpdate w0 i s).boost_pwm_enable = s.boost_pwm_enable := by
  simp only [powerSyncUpdate]; split_ifs <;> rfl

theorem powerSyncUpdate_delta (w0 : ℚ) (i : TickInput) (s : Globals) :
    (powerSyncUpdate w0 i s).delta_duty_cycle = i.calc_duty := by
  simp only [powerSyncUpdate]; split_ifs <;> rfl

theorem powerApplyDuty_duty_cycle_1 (s : Globals) :
    (powerApplyDuty s).duty_cycle_1 = s.delta_duty_cycle + s.duty_cycle_offset := rfl

theorem powerApplyDuty_duty_cycle_2 (s : Globals) :
    (powerApplyDuty s).duty_cycle_2 = -s.delta_duty_cycle + s.duty_cycle_offset := rfl

theorem powerOffsetUpdate_capped (s : Globals) (hp : s.pwm_enable = true)
    (hge : ¬ s.duty_cycle_offset < 1 / 2) :
    powerOffsetUpdate s = { s with duty_cycle_offset := 1 / 2 } := by
  unfold powerOffsetUpdate
  rw [if_neg (by simp [hp]), if_neg hge]

theorem powerOffsetUpdate_ramp (s : Globals) (hp : s.pwm_enable = true)
    (hlt : s.duty_cycle_offset < 1 / 2) :
    powerOffsetUpdate s
      = { s with duty_cycle_offset := rate_limiter (1 / 2) s.duty_cycle_offset 1 } := by
  unfold powerOffsetUpdate
  rw [if_neg (by simp [hp]), if_pos hlt]

theorem stopInverterIfDisabled_pwm_off (s : Globals) (e : Effects)
    (hp : s.pwm_enable = false) :
    stopInverterIfDisabled s e = (s, e) := by
  unfold stopInverterIfDisabled
  split_ifs <;> simp_all


theorem loop_critical_task_power (w0 : ℚ) (i : TickInput) (s : Globals)
    (hm : s.mode = POWERMODE) (hon : s.inverter_on = true)
    (hnoc : ¬ overcurrentCond (sampleMeasurements i s)) :
    loop_critical_task w0 i s
      = ({ (powerModeRegulation w0 i
              (boostStage i (sampleMeasurements i s) Effects.none).1
              (boostStage i (sampleMeasurements i s) Effects.none).2).1
            with omega := i.omega },
         (powerModeRegulation w0 i
            (boostStage i (sampleMeasurements i s) Effects.none).1
            (boostStage i (sampleMeasurements i s) Effects.none).2).2) := by
  have h1 : (sampleMeasurements i s).mode ≠ IDLEMODE := by
    rw [sampleMeasurements_mode, hm]; decide
  have h2 : (sampleMeasurements i s).mode ≠ ERRORMODE := by
    rw [sampleMeasurements_mode, hm]; decide
  have h3 : (boostStage i (sampleMeasurements i s) Effects.none).1.inverter_on = true := by
    rw [boostStage_fst_inverter_on, sampleMeasurements_inverter_on, hon]
  have h4 : (boostStage i (sampleMeasurements i s) Effects.none).1.mode ≠ STARTUPMODE := by
    rw [boostStage_fst_mode, sampleMeasurements_mode, hm]; decide
  simp only [loop_critical_task]
  rw [overcurrentProtection_not _ hnoc]
  rw [stopActuationIfInactive_skip _ _ h1 h2]
  rw [stopInverterIfDisabled_enabled _ _ h3]
  rw [startupRampAndSync_notStartup _ _ _ _ h4]

theorem loop_critical_task_startup (w0 : ℚ) (i : TickInput) (s : Globals)
    (hm : s.mode = STARTUPMODE) (hon : s.inverter_on = true)
    (hnoc : ¬ overcurrentCond (sampleMeasurements i s)) :
    loop_critical_task w0 i s
      = ({ (startupRampAndSync w0 i
              (boostStage i (sampleMeasurements i s) Effects.none).1
              (boostStage i (sampleMeasurements i s) Effects.none).2).1
            with omega := i.omega },
         (startupRampAndSync w0 i
            (boostStage i (sampleMeasurements i s) Effects.none).1
            (boostStage i (sampleMeasurements i s) Effects.none).2).2) := by
  have h1 : (sampleMeasurements i s).mode ≠ IDLEMODE := by
    rw [sampleMeasurements_mode, hm]; decide
  have h2 : (sampleMeasurements i s).mode ≠ ERRORMODE := by
    rw [sampleMeasurements_mode, hm]; decide
  have h3 : (boostStage i (sampleMeasurements i s) Effects.none).1.inverter_on = true := by
    rw [boostStage_fst_inverter_on, sampleMeasurements_inverter_on, hon]
  have h4 : (startupRampAndSync w0 i
      (boostStage i (sampleMeasurements i s) Effects.none).1
      (boostStage i (sampleMeasurements i s) Effects.none).2).1.mode ≠ POWERMODE := by
    rw [startupRampAndSync_fst_mode, boostStage_fst_mode, sampleMeasurements_mode, hm]
    decide
  simp only [loop_critical_task]
  rw [overcurrentProtection_not _ hnoc]
  rw [stopActuationIfInactive_skip _ _ h1 h2]
  rw [stopInverterIfDisabled_enabled _ _ h3]
  rw [powerModeRegulation_notPower _ _ _ _ h4]


theorem criticalTail_inactive (w0 : ℚ) (i : TickInput) (X : Globals)
    (E : Effects) (hXm : X.mode = ERRORMODE) (hXp : X.pwm_enable = false) :
    powerModeRegulation w0 i
        (startupRampAndSync w0 i
          (stopInverterIfDisabled (boostStage i X E).1 (boostStage i X E).2).1
          (stopInverterIfDisabled (boostStage i X E).1 (boostStage i X E).2).2).1
        (startupRampAndSync w0 i
          (stopInverterIfDisabled (boostStage i X E).1 (boostStage i X E).2).1
          (stopInverterIfDisabled (boostStage i X E).1 (boostStage i X E).2).2).2
      = (X, E) := by
  rw [boostStage_skip i X E (by rw [hXm]; decide) (by rw [hXm]; decide)]
  rw [stopInverterIfDisabled_pwm_off X E hXp]
  rw [startupRampAndSync_notStartup w0 i X E (by rw [hXm]; decide)]
  rw [powerModeRegulation_notPower w0 i X E (by rw [hXm]; decide)]

theorem loop_critical_task_overcurrent_stop (w0 : ℚ) (i : TickInput)
    (s : Globals) (hhit : overcurrentCond (sampleMeasurements i s))
    (hp : s.pwm_enable = true) (hb : s.boost_pwm_enable = true)
    (hon : s.inverter_on = true) :
    loop_critical_task w0 i s
      = ({ sampleMeasurements i s with
           mode := ERRORMODE, pwm_enable := false,
           boost_pwm_enable := false, omega := i.omega },
         ⟨1, 1, 1, 0, 0, 0, 0, 0⟩) := by
  have hp1 : ({ sampleMeasurements i s with mode := ERRORMODE } : Globals).pwm_enable
      = true := hp
  have hb1 : ({ sampleMeasurements i s with mode := ERRORMODE } : Globals).boost_pwm_enable
      = true := hb
  have hm1 : ({ sampleMeasurements i s with mode := ERRORMODE } : Globals).mode
      = IDLEMODE ∨ ({ sampleMeasurements i s with mode := ERRORMODE } : Globals).mode
      = ERRORMODE := Or.inr rfl
  simp only [loop_critical_task]
  rw [overcurrentProtection_hit _ hhit]
  rw [stopActuationIfInactive_active_both _ _ hm1 hp1 hb1]
  rw [criticalTail_inactive w0 i]
  all_goals rfl

theorem loop_critical_task_error_stopped (w0 : ℚ) (i : TickInput)
    (s : Globals) (hmode : s.mode = ERRORMODE)
    (hp : s.pwm_enable = false) (hb : s.boost_pwm_enable = false) :
    (loop_critical_task w0 i s).2 = Effects.none := by
  have hpE : ({ sampleMeasurements i s with mode := ERRORMODE } : Globals).pwm_enable
      = false := hp
  have hbE : ({ sampleMeasurements i s with mode := ERRORMODE } : Globals).boost_pwm_enable
      = false := hb
  have hpS : (sampleMeasurements i s).pwm_enable = false := hp
  have hbS : (sampleMeasurements i s).boost_pwm_enable = false := hb
  simp only [loop_critical_task]
  by_cases hc : overcurrentCond (sampleMeasurements i s)
  · rw [overcurrentProtection_hit _ hc]
    rw [stopActuationIfInactive_active_stopped _ _ hpE hbE]
    rw [criticalTail_inactive w0 i]
    all_goals first | rfl | exact hpE
  · rw [overcurrentProtection_not _ hc]
    rw [stopActuationIfInactive_active_stopped _ _ hpS hbS]
    rw [criticalTail_inactive w0 i]
    all_goals first
      | rfl
      | exact hpS
      | (rw [sampleMeasurements_mode]; exact hmode)

/-! ## Claim C5 (functional_correctness): the command gateway clamps the
active axis reference into its bound and writes the clamped value back. -/

/-- C5: for every `app_apply_command` invocation, in following sub-mode the
received `id_ref` is clamped into `[Idq_ref_min.d, Idq_ref_max.d]`, stored in
`Idq_ref.d`, and written back into the command field so a read-back returns
the clamped value; symmetrically for `vd_ref` in forming sub-mode. -/
theorem C5_command_clamp (s : Globals) :
    (s.local_mode = InverterMode.FOLLOWING →
      (app_apply_command s).user_cmd.id_ref = (app_apply_command s).Idq_ref_d ∧
      (s.Idq_ref_min_d ≤ s.Idq_ref_max_d →
        s.Idq_ref_min_d ≤ (app_apply_command s).Idq_ref_d ∧
        (app_apply_command s).Idq_ref_d ≤ s.Idq_ref_max_d) ∧
      (s.Idq_ref_min_d ≤ s.Idq_ref_max_d → s.user_cmd.id_ref > s.Idq_ref_max_d →
        (app_apply_command s).Idq_ref_d = s.Idq_ref_max_d) ∧
      (s.Idq_ref_min_d ≤ s.user_cmd.id_ref → s.user_cmd.id_ref ≤ s.Idq_ref_max_d →
        (app_apply_command s).Idq_ref_d = s.user_cmd.id_ref)) ∧
    (s.local_mode = InverterMode.FORMING →
      (app_apply_command s).user_cmd.vd_ref = (app_apply_command s).Vdq_ref_d ∧
      (s.Vdq_ref_min_d ≤ s.Vdq_ref_max_d →
        s.Vdq_ref_min_d ≤ (app_apply_command s).Vdq_ref_d ∧
        (app_apply_command s).Vdq_ref_d ≤ s.Vdq_ref_max_d) ∧
      (s.Vdq_ref_min_d ≤ s.Vdq_ref_max_d → s.user_cmd.vd_ref > s.Vdq_ref_max_d →
        (app_apply_command s).Vdq_ref_d = s.Vdq_ref_max_d) ∧
      (s.Vdq_ref_min_d ≤ s.user_cmd.vd_ref → s.user_cmd.vd_ref ≤ s.Vdq_ref_max_d →
        (app_apply_command s).Vdq_ref_d = s.user_cmd.vd_ref)) := by
  unfold app_apply_command
  constructor
  · intro hloc
    set s2 : Globals :=
      { applyModeRequest s with
        inverter_on := (applyModeRequest s).user_cmd.inverter_on } with hs2
    have h2loc : s2.local_mode = InverterMode.FOLLOWING := by
      rw [hs2]; show (applyModeRequest s).local_mode = _
      rw [applyModeRequest_local_mode]; exact hloc
    have h2cmd : s2.user_cmd = s.user_cmd := by
      rw [hs2]; show (applyModeRequest s).user_cmd = _
      exact applyModeRequest_user_cmd s
    have h2max : s2.Idq_ref_max_d = s.Idq_ref_max_d := by
      rw [hs2]; show (applyModeRequest s).Idq_ref_max_d = _
      exact applyModeRequest_Idq_ref_max_d s
    have h2min : s2.Idq_ref_min_d = s.Idq_ref_min_d := by
      rw [hs2]; show (applyModeRequest s).Idq_ref_min_d = _
      exact applyModeRequest_Idq_ref_min_d s
    have hc := applyReferenceClamp_following s2 h2loc
    rw [applyScopeFlags_id_ref, applyScopeFlags_Idq_ref_d]
    refine ⟨hc.2, ?_, ?_, ?_⟩
    · intro hmm
      rw [hc.1, h2cmd, h2max, h2min]
      split_ifs <;> constructor <;> linarith
    · intro hmm hgt
      rw [hc.1, h2cmd, h2max, h2min]
      split_ifs <;> linarith
    · intro hlo hhi
      rw [hc.1, h2cmd, h2max, h2min]
      split_ifs <;> linarith
  · intro hloc
    set s2 : Globals :=
      { applyModeRequest s with
        inverter_on := (applyModeRequest s).user_cmd.inverter_on } with hs2
    have h2loc : s2.local_mode = InverterMode.FORMING := by
      rw [hs2]; show (applyModeRequest s).local_mode = _
      rw [applyModeRequest_local_mode]; exact hloc
    have h2cmd : s2.user_cmd = s.user_cmd := by
      rw [hs2]; show (applyModeRequest s).user_cmd = _
      exact applyModeRequest_user_cmd s
    have h2max : s2.Vdq_ref_max_d = s.Vdq_ref_max_d := by
      rw [hs2]; show (applyModeRequest s).Vdq_ref_max_d = _
      exact applyModeRequest_Vdq_ref_max_d s
    have h2min : s2.Vdq_ref_min_d = s.Vdq_ref_min_d := by
      rw [hs2]; show (applyModeRequest s).Vdq_ref_min_d = _
      exact applyModeRequest_Vdq_ref_min_d s
    have hc := applyReferenceClamp_forming s2 h2loc
    rw [applyScopeFlags_vd_ref, applyScopeFlags_Vdq_ref_d]
    refine ⟨hc.2, ?_, ?_, ?_⟩
    · intro hmm
      rw [hc.1, h2cmd, h2max, h2min]
      split_ifs <;> constructor <;> linarith
    · intro hmm hgt
      rw [hc.1, h2cmd, h2max, h2min]
      split_ifs <;> linarith
    · intro hlo hhi
      rw [hc.1, h2cmd, h2max, h2min]
      split_ifs <;> linarith

/-- C5 witness: with the configured bounds `[-0.1, 8]`, a command write of
`id_ref = 55` in following sub-mode stores and reads back `8`. -/
theorem C5_witness :
    (app_apply_command overLimitCmdState).user_cmd.id_ref
        = (app_apply_command overLimitCmdState).Idq_ref_d ∧
    (app_apply_command overLimitCmdState).Idq_ref_d = 8 := by
  have h := (C5_command_clamp overLimitCmdState).1 rfl
  exact ⟨h.1, h.2.2.1 (by norm_num [overLimitCmdState, baseState])
    (by norm_num [overLimitCmdState, baseState])⟩

/-! ## Claim C8 (functional_correctness): idle override and Error latch of
the low-rate state machine. -/

/-- C8: on every low-rate state-machine tick, a requested mode of Idle forces
the post-tick mode to Idle from any pre-tick state (Error included); and with
any other requested mode the machine never leaves Error. -/
theorem C8_idle_override_error_latch (s : Globals) :
    (s.mode_asked = IDLEMODE → (loop_application_task s).mode = IDLEMODE) ∧
    (s.mode = ERRORMODE → s.mode_asked ≠ IDLEMODE →
      (loop_application_task s).mode = ERRORMODE) := by
  constructor
  · intro h
    unfold loop_application_task
    simp only [h, if_true, reduceIte]
    split_ifs <;> rfl
  · intro hm ha
    unfold loop_application_task
    rw [appTaskStateMachine_error s hm]
    simp only [if_neg ha]
    have h3 : s.mode ≠ IDLEMODE := by rw [hm]; decide
    simp [h3, hm, ERRORMODE, IDLEMODE]

/-- C8 witness: from Error with Idle requested the tick lands in Idle. -/
theorem C8_witness :
    (loop_application_task errorIdleState).mode = IDLEMODE :=
  (C8_idle_override_error_latch errorIdleState).1 rfl

/-! ## Claim C9 (algebraic_relational): `saturate` idempotent and monotone.
As universally quantified over `min`/`max` the claim fails (sequential clamp
with `min > max`); with `min ≤ max` both properties hold. -/

/-- C9 counterexample: with `min = 3 > 1 = max`, `saturate` is neither
idempotent (`saturate 5 = 1` but `saturate 1 = 3`) nor monotone
(`0 ≤ 5` yet `saturate 0 = 3 > 1 = saturate 5`). -/
theorem C9_counterexample :
    saturate (saturate 5 3 1) 3 1 ≠ saturate 5 3 1 ∧
    ((0 : ℚ) ≤ 5 ∧ ¬ saturate 0 3 1 ≤ saturate 5 3 1) := by
  decide

/-- C9 amended: for every `x`, `y` and ordered bounds `min ≤ max`,
`saturate` is idempotent and monotone in its first argument. -/
theorem C9_saturate_amended (x y mn mx : ℚ) (hle : mn ≤ mx) :
    saturate (saturate x mn mx) mn mx = saturate x mn mx ∧
    (x ≤ y → saturate x mn mx ≤ saturate y mn mx) := by
  unfold saturate
  constructor
  · split_ifs <;> linarith
  · intro hxy
    split_ifs <;> linarith

/-- C9 witness: instance of the amended claim at `x = 5`, `y = 5`/`x = 2`,
bounds `[3, 7]`. -/
theorem C9_witness :
    (3 : ℚ) ≤ 7 ∧
    saturate (saturate 5 3 7) 3 7 = saturate 5 3 7 ∧
    ((2 : ℚ) ≤ 5 → saturate 2 3 7 ≤ saturate 5 3 7) := by
  refine ⟨by norm_num, ?_, ?_⟩
  · exact (C9_saturate_amended 5 5 3 7 (by norm_num)).1
  · exact (C9_saturate_amended 2 5 3 7 (by norm_num)).2

/-! ## Claim C10 (frame_effect): non-{Idle,Power} mode requests leave the
latched requested mode unchanged. -/

/-- C10: `app_apply_command` with `mode_request` equal to neither `IDLEMODE`
(0) nor `POWERMODE` (1) — e.g. `ERRORMODE` (3) or `STARTUPMODE` (4) — leaves
`mode_asked` unchanged. -/
theorem C10_mode_request_frame (s : Globals)
    (h0 : s.user_cmd.mode_request ≠ IDLEMODE)
    (h1 : s.user_cmd.mode_request ≠ POWERMODE) :
    (app_apply_command s).mode_asked = s.mode_asked := by
  unfold app_apply_command
  rw [applyScopeFlags_mode_asked, applyReferenceClamp_mode_asked,
    applyModeRequest_default s h0 h1]

/-- C10 witness: a request of `ERRORMODE` (3) leaves `mode_asked` at
`POWERMODE`. -/
theorem C10_witness :
    (app_apply_command errorRequestState).mode_asked
      = errorRequestState.mode_asked :=
  C10_mode_request_frame errorRequestState (by decide) (by decide)





/-! ## Helper lemmas: concrete inputs -/

theorem inBandInput_no_oc (s : Globals) :
    ¬ overcurrentCond (sampleMeasurements inBandInput s) := by
  simp only [overcurrentCond, sampleMeasurements, inBandInput, MAX_CURRENT,
    I1_current_offset, I2_current_offset]
  norm_num

theorem outBandInput_no_oc (s : Globals) :
    ¬ overcurrentCond (sampleMeasurements outBandInput s) := by
  simp only [overcurrentCond, sampleMeasurements, outBandInput, MAX_CURRENT,
    I1_current_offset, I2_current_offset]
  norm_num

theorem largeDutyInput_no_oc (s : Globals) :
    ¬ overcurrentCond (sampleMeasurements largeDutyInput s) := by
  simp only [overcurrentCond, sampleMeasurements, largeDutyInput, MAX_CURRENT,
    I1_current_offset, I2_current_offset]
  norm_num

theorem overcurrentInput_oc (s : Globals) :
    overcurrentCond (sampleMeasurements overcurrentInput s) := by
  simp only [overcurrentCond, sampleMeasurements, overcurrentInput, MAX_CURRENT,
    I1_current_offset, I2_current_offset]
  norm_num

/-! ## Helper lemma: sync/desync transition of a Power-mode tick -/


theorem powerModeRegulation_fst_inverter_on (w0 : ℚ) (i : TickInput)
    (s : Globals) (e : Effects) :
    (powerModeRegulation w0 i s e).1.inverter_on = s.inverter_on := by
  unfold powerModeRegulation
  split_ifs with h
  · simp only [powerStartCheck_fst_inverter_on, powerApplyDuty_inverter_on,
      powerOffsetUpdate_keeps_inverter_on, powerSyncUpdate_keeps_inverter_on]
  · rfl

theorem powerModeRegulation_fst_local_mode (w0 : ℚ) (i : TickInput)
    (s : Globals) (e : Effects) :
    (powerModeRegulation w0 i s e).1.local_mode = s.local_mode := by
  unfold powerModeRegulation
  split_ifs with h
  · simp only [powerStartCheck_fst_local_mode, powerApplyDuty_local_mode,
      powerOffsetUpdate_keeps_local_mode, powerSyncUpdate_keeps_local_mode]
  · rfl

theorem powerModeRegulation_fst_boost_pwm_enable (w0 : ℚ) (i : TickInput)
    (s : Globals) (e : Effects) :
    (powerModeRegulation w0 i s e).1.boost_pwm_enable = s.boost_pwm_enable := by
  unfold powerModeRegulation
  split_ifs with h
  · simp only [powerStartCheck_fst_boost_pwm_enable, powerApplyDuty_boost_pwm_enable,
      powerOffsetUpdate_keeps_boost_pwm_enable, powerSyncUpdate_keeps_boost_pwm_enable]
  · rfl

theorem powerModeRegulation_sync_fields (w0 : ℚ) (i : TickInput) (s : Globals)
    (e : Effects) (hm : s.mode = POWERMODE) (hon : s.inverter_on = true) :
    (inBandClosed w0 i.omega →
       (powerModeRegulation w0 i s e).1.desync_counter = s.desync_counter ∧
       (powerModeRegulation w0 i s e).1.mode = POWERMODE ∧
       (powerModeRegulation w0 i s e).1.mode_asked = s.mode_asked ∧
       (powerModeRegulation w0 i s e).1.sync_counter = s.sync_counter ∧
       (powerModeRegulation w0 i s e).1.is_net_synchronized = true) ∧
    ((¬ inBandClosed w0 i.omega → s.desync_counter + 1 ≤ 200 →
       (powerModeRegulation w0 i s e).1.desync_counter = s.desync_counter + 1 ∧
       (powerModeRegulation w0 i s e).1.mode = POWERMODE ∧
       (powerModeRegulation w0 i s e).1.mode_asked = s.mode_asked ∧
       (powerModeRegulation w0 i s e).1.sync_counter = s.sync_counter ∧
       (powerModeRegulation w0 i s e).1.is_net_synchronized = false) ∧
    (¬ inBandClosed w0 i.omega → s.desync_counter + 1 > 200 →
       (powerModeRegulation w0 i s e).1.desync_counter = 0 ∧
       (powerModeRegulation w0 i s e).1.mode = IDLEMODE ∧
       (powerModeRegulation w0 i s e).1.mode_asked = IDLEMODE ∧
       (powerModeRegulation w0 i s e).1.sync_counter = 0 ∧
       (powerModeRegulation w0 i s e).1.is_net_synchronized = false)) := by
  rw [powerModeRegulation_active w0 i s e hm hon]
  refine ⟨fun hband => ?_, fun hband hle => ?_, fun hband hgt => ?_⟩
  · rw [powerSyncUpdate_inband w0 i s hband]
    simp only [powerStartCheck_fst_desync_counter, powerStartCheck_fst_mode,
      powerStartCheck_fst_mode_asked, powerStartCheck_fst_sync_counter,
      powerStartCheck_fst_is_net_synchronized, powerApplyDuty_desync_counter,
      powerApplyDuty_mode, powerApplyDuty_mode_asked, powerApplyDuty_sync_counter,
      powerApplyDuty_is_net_synchronized, powerOffsetUpdate_keeps_desync_counter,
      powerOffsetUpdate_keeps_mode, powerOffsetUpdate_keeps_mode_asked,
      powerOffsetUpdate_keeps_sync_counter,
      powerOffsetUpdate_keeps_is_net_synchronized]
    simp [hm]
  · rw [powerSyncUpdate_outband_low w0 i s hband hle]
    simp only [powerStartCheck_fst_desync_counter, powerStartCheck_fst_mode,
      powerStartCheck_fst_mode_asked, powerStartCheck_fst_sync_counter,
      powerStartCheck_fst_is_net_synchronized, powerApplyDuty_desync_counter,
      powerApplyDuty_mode, powerApplyDuty_mode_asked, powerApplyDuty_sync_counter,
      powerApplyDuty_is_net_synchronized, powerOffsetUpdate_keeps_desync_counter,
      powerOffsetUpdate_keeps_mode, powerOffsetUpdate_keeps_mode_asked,
      powerOffsetUpdate_keeps_sync_counter,
      powerOffsetUpdate_keeps_is_net_synchronized]
    simp [hm]
  · rw [powerSyncUpdate_outband_trip w0 i s hband hgt]
    simp only [powerStartCheck_fst_desync_counter, powerStartCheck_fst_mode,
      powerStartCheck_fst_mode_asked, powerStartCheck_fst_sync_counter,
      powerStartCheck_fst_is_net_synchronized, powerApplyDuty_desync_counter,
      powerApplyDuty_mode, powerApplyDuty_mode_asked, powerApplyDuty_sync_counter,
      powerApplyDuty_is_net_synchronized, powerOffsetUpdate_keeps_desync_counter,
      powerOffsetUpdate_keeps_mode, powerOffsetUpdate_keeps_mode_asked,
      powerOffsetUpdate_keeps_sync_counter,
      powerOffsetUpdate_keeps_is_net_synchronized]
    simp



theorem power_tick_sync_transition (w0 : ℚ) (i : TickInput) (s : Globals)
    (hm : s.mode = POWERMODE) (hon : s.inverter_on = true)
    (hnoc : ¬ overcurrentCond (sampleMeasurements i s)) :
    (loop_critical_task w0 i s).1.inverter_on = true ∧
    (loop_critical_task w0 i s).1.local_mode = s.local_mode ∧
    (¬ inBandClosed w0 i.omega → s.desync_counter + 1 ≤ 200 →
       (loop_critical_task w0 i s).1.desync_counter = s.desync_counter + 1 ∧
       (loop_critical_task w0 i s).1.mode = POWERMODE ∧
       (loop_critical_task w0 i s).1.mode_asked = s.mode_asked ∧
       (loop_critical_task w0 i s).1.is_net_synchronized = false) ∧
    (¬ inBandClosed w0 i.omega → s.desync_counter + 1 > 200 →
       (loop_critical_task w0 i s).1.desync_counter = 0 ∧
       (loop_critical_task w0 i s).1.sync_counter = 0 ∧
       (loop_critical_task w0 i s).1.mode = IDLEMODE ∧
       (loop_critical_task w0 i s).1.mode_asked = IDLEMODE) ∧
    (inBandClosed w0 i.omega →
       (loop_critical_task w0 i s).1.desync_counter = s.desync_counter ∧
       (loop_critical_task w0 i s).1.is_net_synchronized = true ∧
       (loop_critical_task w0 i s).1.mode = POWERMODE ∧
       (loop_critical_task w0 i s).1.mode_asked = s.mode_asked) := by
  have hSBm : (boostStage i (sampleMeasurements i s) Effects.none).1.mode
      = POWERMODE := by
    rw [boostStage_fst_mode, sampleMeasurements_mode, hm]
  have hSBon : (boostStage i (sampleMeasurements i s) Effects.none).1.inverter_on
      = true := by
    rw [boostStage_fst_inverter_on, sampleMeasurements_inverter_on, hon]
  have hSBd : (boostStage i (sampleMeasurements i s) Effects.none).1.desync_counter
      = s.desync_counter := by
    rw [boostStage_fst_desync_counter, sampleMeasurements_desync_counter]
  have hSBa : (boostStage i (sampleMeasurements i s) Effects.none).1.mode_asked
      = s.mode_asked := by
    rw [boostStage_fst_mode_asked, sampleMeasurements_mode_asked]
  have hSBl : (boostStage i (sampleMeasurements i s) Effects.none).1.local_mode
      = s.local_mode := by
    rw [boostStage_fst_local_mode, sampleMeasurements_local_mode]
  have H := powerModeRegulation_sync_fields w0 i
    (boostStage i (sampleMeasurements i s) Effects.none).1
    (boostStage i (sampleMeasurements i s) Effects.none).2 hSBm hSBon
  rw [loop_critical_task_power w0 i s hm hon hnoc]
  dsimp only
  refine ⟨?_, ?_, fun hband hle => ?_, fun hband hgt => ?_, fun hband => ?_⟩
  · rw [powerModeRegulation_fst_inverter_on, hSBon]
  · rw [powerModeRegulation_fst_local_mode, hSBl]
  · obtain ⟨hd, hmo, hma, hsc, hsy⟩ := H.2.1 hband (by rw [hSBd]; omega)
    exact ⟨by rw [hd, hSBd], hmo, by rw [hma, hSBa], hsy⟩
  · obtain ⟨hd, hmo, hma, hsc, hsy⟩ := H.2.2 hband (by rw [hSBd]; omega)
    exact ⟨hd, hsc, hmo, hma⟩
  · obtain ⟨hd, hmo, hma, hsc, hsy⟩ := H.1 hband
    exact ⟨by rw [hd, hSBd], hsy, hmo, by rw [hma, hSBa]⟩


/-! ## Helper lemma: duty computation of a Power-mode tick -/

theorem power_tick_duty (w0 : ℚ) (i : TickInput) (s : Globals)
    (hm : s.mode = POWERMODE) (hon : s.inverter_on = true)
    (hnoc : ¬ overcurrentCond (sampleMeasurements i s)) :
    (loop_critical_task w0 i s).1.duty_cycle_1
      = i.calc_duty + (loop_critical_task w0 i s).1.duty_cycle_offset ∧
    (loop_critical_task w0 i s).1.duty_cycle_2
      = -i.calc_duty + (loop_critical_task w0 i s).1.duty_cycle_offset := by
  have hSBm : (boostStage i (sampleMeasurements i s) Effects.none).1.mode
      = POWERMODE := by
    rw [boostStage_fst_mode, sampleMeasurements_mode, hm]
  have hSBon : (boostStage i (sampleMeasurements i s) Effects.none).1.inverter_on
      = true := by
    rw [boostStage_fst_inverter_on, sampleMeasurements_inverter_on, hon]
  rw [loop_critical_task_power w0 i s hm hon hnoc]
  dsimp only
  rw [powerModeRegulation_active _ _ _ _ hSBm hSBon]
  simp only [powerStartCheck_fst_duty_cycle_1, powerStartCheck_fst_duty_cycle_2,
    powerStartCheck_fst_duty_cycle_offset, powerApplyDuty_duty_cycle_1,
    powerApplyDuty_duty_cycle_2, powerApplyDuty_duty_cycle_offset,
    powerOffsetUpdate_keeps_delta_duty_cycle, powerSyncUpdate_delta]
  simp

/-! ## Claim C1 (invariants): final leg duty cycles in Power mode.
The code computes `duty_cycle_1/2 = duty_cycle_offset ± delta_duty_cycle` with
no clamp to [0,1] (DUTY_MIN/DUTY_MAX of main.cpp lines 49-50 are never used),
so the claimed invariant fails; the duties are in [0,1] exactly when the
control-law output is small enough relative to the offset. -/

/-- C1 counterexample: a Power-mode tick with the inverter enabled whose
control law returns `Δduty = 2` produces `duty_cycle_1 = 5/2 ∉ [0,1]`. -/
theorem C1_counterexample :
    powerActiveState.mode = POWERMODE ∧
    powerActiveState.inverter_on = true ∧
    (loop_critical_task 100 largeDutyInput powerActiveState).1.duty_cycle_1 = 5 / 2 ∧
    ¬ (loop_critical_task 100 largeDutyInput powerActiveState).1.duty_cycle_1 ≤ 1 := by
  have hnoc := largeDutyInput_no_oc powerActiveState
  have hband : inBandClosed 100 largeDutyInput.omega := by
    norm_num [inBandClosed, sync_power_tolerance, largeDutyInput]
  have hoff : (loop_critical_task 100 largeDutyInput powerActiveState).1.duty_cycle_offset
      = 1 / 2 := by
    have hSBm : (boostStage largeDutyInput
        (sampleMeasurements largeDutyInput powerActiveState) Effects.none).1.mode
        = POWERMODE := by
      rw [boostStage_fst_mode, sampleMeasurements_mode]; rfl
    have hSBon : (boostStage largeDutyInput
        (sampleMeasurements largeDutyInput powerActiveState) Effects.none).1.inverter_on
        = true := by
      rw [boostStage_fst_inverter_on, sampleMeasurements_inverter_on]; rfl
    rw [loop_critical_task_power 100 largeDutyInput powerActiveState rfl rfl hnoc]
    dsimp only
    rw [powerModeRegulation_active _ _ _ _ hSBm hSBon]
    simp only [powerStartCheck_fst_duty_cycle_offset, powerApplyDuty_duty_cycle_offset]
    rw [powerSyncUpdate_inband _ _ _ hband]
    rw [powerOffsetUpdate_capped]
    all_goals first
      | rfl
      | (rw [boostStage_fst_duty_cycle_offset, sampleMeasurements_duty_cycle_offset]
         norm_num [powerActiveState, baseState])
  have hd := (power_tick_duty 100 largeDutyInput powerActiveState rfl rfl hnoc).1
  rw [hoff] at hd
  refine ⟨rfl, rfl, ?_, ?_⟩
  · rw [hd]; norm_num [largeDutyInput]
  · rw [hd]; norm_num [largeDutyInput]

/-- C1 (corrected): in Power mode with the inverter enabled and no
overcurrent, the tick computes `duty_cycle_1 = Δduty + duty_cycle_offset` and
`duty_cycle_2 = -Δduty + duty_cycle_offset` with no clamping; they lie in
[0,1] whenever `|Δduty| ≤ min(duty_cycle_offset, 1 - duty_cycle_offset)`,
a bound the code itself does not enforce. -/
theorem C1_duty_outputs_amended (w0 : ℚ) (i : TickInput) (s : Globals)
    (hm : s.mode = POWERMODE) (hon : s.inverter_on = true)
    (hnoc : ¬ overcurrentCond (sampleMeasurements i s)) :
    (loop_critical_task w0 i s).1.duty_cycle_1
      = i.calc_duty + (loop_critical_task w0 i s).1.duty_cycle_offset ∧
    (loop_critical_task w0 i s).1.duty_cycle_2
      = -i.calc_duty + (loop_critical_task w0 i s).1.duty_cycle_offset ∧
    (|i.calc_duty| ≤ (loop_critical_task w0 i s).1.duty_cycle_offset →
     |i.calc_duty| ≤ 1 - (loop_critical_task w0 i s).1.duty_cycle_offset →
       0 ≤ (loop_critical_task w0 i s).1.duty_cycle_1 ∧
       (loop_critical_task w0 i s).1.duty_cycle_1 ≤ 1 ∧
       0 ≤ (loop_critical_task w0 i s).1.duty_cycle_2 ∧
       (loop_critical_task w0 i s).1.duty_cycle_2 ≤ 1) := by
  obtain ⟨h1, h2⟩ := power_tick_duty w0 i s hm hon hnoc
  refine ⟨h1, h2, fun hb1 hb2 => ?_⟩
  rw [abs_le] at hb1 hb2
  rw [h1, h2]
  refine ⟨by linarith, by linarith, by linarith, by linarith⟩

/-- C1 witness: concrete Power-mode tick with `Δduty = 0`; both duties equal
the offset and the bound hypotheses hold, giving duties in [0,1]. -/
theorem C1_witness :
    (loop_critical_task 100 inBandInput powerActiveState).1.duty_cycle_1
      = inBandInput.calc_duty
        + (loop_critical_task 100 inBandInput powerActiveState).1.duty_cycle_offset ∧
    (loop_critical_task 100 inBandInput powerActiveState).1.duty_cycle_2
      = -inBandInput.calc_duty
        + (loop_critical_task 100 inBandInput powerActiveState).1.duty_cycle_offset ∧
    (|inBandInput.calc_duty|
        ≤ (loop_critical_task 100 inBandInput powerActiveState).1.duty_cycle_offset →
     |inBandInput.calc_duty|
        ≤ 1 - (loop_critical_task 100 inBandInput powerActiveState).1.duty_cycle_offset →
       0 ≤ (loop_critical_task 100 inBandInput powerActiveState).1.duty_cycle_1 ∧
       (loop_critical_task 100 inBandInput powerActiveState).1.duty_cycle_1 ≤ 1 ∧
       0 ≤ (loop_critical_task 100 inBandInput powerActiveState).1.duty_cycle_2 ∧
       (loop_critical_task 100 inBandInput powerActiveState).1.duty_cycle_2 ≤ 1) :=
  C1_duty_outputs_amended 100 inBandInput powerActiveState rfl rfl
    (inBandInput_no_oc powerActiveState)

/-! ## Claim C2 (error_handling): overcurrent trip.
The code forces Error and issues the stop calls in the SAME tick (the
protection check at lines 429-436 precedes the shutdown block at lines
439-454 of the same tick); the claim's "following tick" issues no stop. -/

/-- C2 counterexample: with actuation active, an overcurrent tick itself
issues the stop calls (one `stop(ALL)` and one stop per boost leg) and forces
Error; the FOLLOWING tick issues no stop call at all, contradicting the
claim that the stop happens on the following tick. -/
theorem C2_counterexample :
    ((loop_critical_task 100 overcurrentInput powerActiveState).1.mode = ERRORMODE ∧
     (loop_critical_task 100 overcurrentInput powerActiveState).2.stopAllCalls = 1 ∧
     (loop_critical_task 100 overcurrentInput powerActiveState).2.stopLeg1Low = 1 ∧
     (loop_critical_task 100 overcurrentInput powerActiveState).2.stopLeg2Low = 1) ∧
    ((loop_critical_task 100 overcurrentInput
        (loop_critical_task 100 overcurrentInput powerActiveState).1).2.stopAllCalls = 0 ∧
     (loop_critical_task 100 overcurrentInput
        (loop_critical_task 100 overcurrentInput powerActiveState).1).2.stopLeg1Low = 0 ∧
     (loop_critical_task 100 overcurrentInput
        (loop_critical_task 100 overcurrentInput powerActiveState).1).2.stopLeg2Low = 0 ∧
     (loop_critical_task 100 overcurrentInput
        (loop_critical_task 100 overcurrentInput powerActiveState).1).2.stopLeg1High = 0) := by
  have h1 := loop_critical_task_overcurrent_stop 100 overcurrentInput powerActiveState
    (overcurrentInput_oc powerActiveState) rfl rfl rfl
  have hm1 : (loop_critical_task 100 overcurrentInput powerActiveState).1.mode
      = ERRORMODE := by rw [h1]
  have hp1 : (loop_critical_task 100 overcurrentInput powerActiveState).1.pwm_enable
      = false := by rw [h1]
  have hb1 : (loop_critical_task 100 overcurrentInput powerActiveState).1.boost_pwm_enable
      = false := by rw [h1]
  have h2 := loop_critical_task_error_stopped 100 overcurrentInput
    (loop_critical_task 100 overcurrentInput powerActiveState).1 hm1 hp1 hb1
  exact ⟨⟨hm1, by rw [h1], by rw [h1], by rw [h1]⟩,
    by rw [h2]; rfl, by rw [h2]; rfl, by rw [h2]; rfl, by rw [h2]; rfl⟩

/-- C2 (corrected): an overcurrent tick with actuation active forces Error
and issues, in that same tick, exactly one stop of all legs and one stop per
boost leg (and no other actuation call); afterwards, with actuation stopped,
an Error-mode tick issues no actuation call at all. -/
theorem C2_overcurrent_amended (w0 : ℚ) (i : TickInput) (s : Globals) :
    (overcurrentCond (sampleMeasurements i s) → s.pwm_enable = true →
     s.boost_pwm_enable = true → s.inverter_on = true →
       (loop_critical_task w0 i s).1.mode = ERRORMODE ∧
       (loop_critical_task w0 i s).2 = ⟨1, 1, 1, 0, 0, 0, 0, 0⟩ ∧
       (loop_critical_task w0 i s).1.pwm_enable = false ∧
       (loop_critical_task w0 i s).1.boost_pwm_enable = false) ∧
    (s.mode = ERRORMODE → s.pwm_enable = false → s.boost_pwm_enable = false →
       (loop_critical_task w0 i s).2 = Effects.none) := by
  constructor
  · intro hhit hp hb hon
    rw [loop_critical_task_overcurrent_stop w0 i s hhit hp hb hon]
    exact ⟨rfl, rfl, rfl, rfl⟩
  · intro hmode hp hb
    exact loop_critical_task_error_stopped w0 i s hmode hp hb

/-- C2 witness: the overcurrent scenario instantiated at a concrete active
Power-mode state and a 9 A `ILow1` sample. -/
theorem C2_witness :
    (loop_critical_task 100 overcurrentInput powerActiveState).1.mode = ERRORMODE ∧
    (loop_critical_task 100 overcurrentInput powerActiveState).2
      = ⟨1, 1, 1, 0, 0, 0, 0, 0⟩ ∧
    (loop_critical_task 100 overcurrentInput powerActiveState).1.pwm_enable = false ∧
    (loop_critical_task 100 overcurrentInput powerActiveState).1.boost_pwm_enable
      = false :=
  (C2_overcurrent_amended 100 overcurrentInput powerActiveState).1
    (overcurrentInput_oc powerActiveState) rfl rfl rfl

/-! ## Claim C3 (temporal): lock-loss counter in Power mode.
The code never resets `desync_counter` on an in-band tick (no else branch at
lines 536-547); it only resets when the trip fires, and the trip fires when
the counter EXCEEDS 200, i.e. on the 201st out-of-band tick since the last
reset — the out-of-band ticks need not be consecutive. -/

/-- C3 counterexample: one out-of-band tick increments the lock-loss counter
to 1; a following in-band tick (synchronized again) leaves the counter at 1
instead of resetting it to 0 as the claim requires. -/
theorem C3_counterexample :
    (loop_critical_task 100 outBandInput powerActiveState).1.desync_counter = 1 ∧
    (loop_critical_task 100 inBandInput
       (loop_critical_task 100 outBandInput powerActiveState).1).1.is_net_synchronized
      = true ∧
    (loop_critical_task 100 inBandInput
       (loop_critical_task 100 outBandInput powerActiveState).1).1.desync_counter
      = 1 := by
  have hob : ¬ inBandClosed 100 outBandInput.omega := by
    norm_num [inBandClosed, sync_power_tolerance, outBandInput]
  have hib : inBandClosed 100 inBandInput.omega := by
    norm_num [inBandClosed, sync_power_tolerance, inBandInput]
  have H1 := power_tick_sync_transition 100 outBandInput powerActiveState rfl rfl
    (outBandInput_no_oc powerActiveState)
  obtain ⟨hd1, hm1, hma1, hsy1⟩ := H1.2.2.1 hob (by norm_num [powerActiveState, baseState])
  have hd1' : (loop_critical_task 100 outBandInput powerActiveState).1.desync_counter
      = 1 := by rw [hd1]; rfl
  have H2 := power_tick_sync_transition 100 inBandInput
    (loop_critical_task 100 outBandInput powerActiveState).1 hm1 H1.1
    (inBandInput_no_oc _)
  obtain ⟨hd2, hsy2, hm2, hma2⟩ := H2.2.2.2.2 hib
  exact ⟨hd1', hsy2, by rw [hd2, hd1']⟩

/-- C3 (corrected): in Power mode with the inverter enabled and no
overcurrent, the lock-loss counter increments on every out-of-band tick and
is left unchanged (not reset) by in-band ticks; it is cleared only by the
trip itself, which fires when the counter exceeds 200 — on the 201st
out-of-band tick since the last reset, consecutive or not — forcing both
`mode` and `mode_asked` to Idle and clearing both counters. -/
theorem C3_desync_amended (w0 : ℚ) (i : TickInput) (s : Globals)
    (hm : s.mode = POWERMODE) (hon : s.inverter_on = true)
    (hnoc : ¬ overcurrentCond (sampleMeasurements i s)) :
    (¬ inBandClosed w0 i.omega → s.desync_counter + 1 ≤ 200 →
       (loop_critical_task w0 i s).1.desync_counter = s.desync_counter + 1 ∧
       (loop_critical_task w0 i s).1.mode = POWERMODE ∧
       (loop_critical_task w0 i s).1.mode_asked = s.mode_asked ∧
       (loop_critical_task w0 i s).1.is_net_synchronized = false) ∧
    (¬ inBandClosed w0 i.omega → s.desync_counter + 1 > 200 →
       (loop_critical_task w0 i s).1.desync_counter = 0 ∧
       (loop_critical_task w0 i s).1.sync_counter = 0 ∧
       (loop_critical_task w0 i s).1.mode = IDLEMODE ∧
       (loop_critical_task w0 i s).1.mode_asked = IDLEMODE) ∧
    (inBandClosed w0 i.omega →
       (loop_critical_task w0 i s).1.desync_counter = s.desync_counter ∧
       (loop_critical_task w0 i s).1.is_net_synchronized = true ∧
       (loop_critical_task w0 i s).1.mode = POWERMODE ∧
       (loop_critical_task w0 i s).1.mode_asked = s.mode_asked) := by
  have H := power_tick_sync_transition w0 i s hm hon hnoc
  exact ⟨H.2.2.1, H.2.2.2.1, H.2.2.2.2⟩

/-- C3 witness: a first out-of-band tick from a zero counter increments it to
1 and stays in Power mode. -/
theorem C3_witness :
    (loop_critical_task 100 outBandInput powerActiveState).1.desync_counter
      = powerActiveState.desync_counter + 1 ∧
    (loop_critical_task 100 outBandInput powerActiveState).1.mode = POWERMODE ∧
    (loop_critical_task 100 outBandInput powerActiveState).1.mode_asked
      = powerActiveState.mode_asked ∧
    (loop_critical_task 100 outBandInput powerActiveState).1.is_net_synchronized
      = false :=
  (C3_desync_amended 100 outBandInput powerActiveState rfl rfl
      (outBandInput_no_oc powerActiveState)).1
    (by norm_num [inBandClosed, sync_power_tolerance, outBandInput])
    (by norm_num [powerActiveState, baseState])



/-! ## Helper lemmas: Startup/following tick and run (lock acquisition) -/

theorem runCritical_succ (w0 : ℚ) (inp : ℕ → TickInput) (s : Globals) (n : ℕ) :
    runCritical w0 inp s (n + 1)
      = (loop_critical_task w0 (inp n) (runCritical w0 inp s n)).1 := rfl

theorem startup_tick_inband (w0 : ℚ) (i : TickInput) (s : Globals)
    (hm : s.mode = STARTUPMODE) (hon : s.inverter_on = true)
    (hloc : s.local_mode = InverterMode.FOLLOWING)
    (hnoc : ¬ overcurrentCond (sampleMeasurements i s))
    (hband : inBandStrict w0 i.omega) :
    ((loop_critical_task w0 i s).1.mode = STARTUPMODE ∧
     (loop_critical_task w0 i s).1.inverter_on = true ∧
     (loop_critical_task w0 i s).1.local_mode = InverterMode.FOLLOWING ∧
     (loop_critical_task w0 i s).1.mode_asked = s.mode_asked) ∧
    (s.sync_counter + 1 ≤ 2000 →
       (loop_critical_task w0 i s).1.sync_counter = s.sync_counter + 1 ∧
       (loop_critical_task w0 i s).1.is_net_synchronized = s.is_net_synchronized) ∧
    (s.sync_counter + 1 > 2000 →
       (loop_critical_task w0 i s).1.sync_counter = 0 ∧
       (loop_critical_task w0 i s).1.is_net_synchronized = true) := by
  have hSBm : (boostStage i (sampleMeasurements i s) Effects.none).1.mode
      = STARTUPMODE := by
    rw [boostStage_fst_mode, sampleMeasurements_mode, hm]
  have hSBon : (boostStage i (sampleMeasurements i s) Effects.none).1.inverter_on
      = true := by
    rw [boostStage_fst_inverter_on, sampleMeasurements_inverter_on, hon]
  have hSBloc : (boostStage i (sampleMeasurements i s) Effects.none).1.local_mode
      = InverterMode.FOLLOWING := by
    rw [boostStage_fst_local_mode, sampleMeasurements_local_mode, hloc]
  have hSBsc : (boostStage i (sampleMeasurements i s) Effects.none).1.sync_counter
      = s.sync_counter := by
    rw [boostStage_fst_sync_counter, sampleMeasurements_sync_counter]
  have hSBsy : (boostStage i
      (sampleMeasurements i s) Effects.none).1.is_net_synchronized
      = s.is_net_synchronized := by
    rw [boostStage_fst_is_net_synchronized, sampleMeasurements_is_net_synchronized]
  have hSBma : (boostStage i (sampleMeasurements i s) Effects.none).1.mode_asked
      = s.mode_asked := by
    rw [boostStage_fst_mode_asked, sampleMeasurements_mode_asked]
  rw [loop_critical_task_startup w0 i s hm hon hnoc]
  rw [startupRampAndSync_following_inband _ _ _ _ hSBm hSBon hSBloc hband]
  rw [hSBsc]
  by_cases hc : s.sync_counter + 1 > 2000
  · rw [if_pos hc]
    dsimp only
    exact ⟨⟨hSBm, hSBon, hSBloc, hSBma⟩,
      fun hle => absurd hc (by omega), fun _ => ⟨rfl, rfl⟩⟩
  · rw [if_neg hc]
    dsimp only
    exact ⟨⟨hSBm, hSBon, hSBloc, hSBma⟩,
      fun _ => ⟨rfl, hSBsy⟩, fun hgt => absurd hgt hc⟩

theorem startup_tick_outband (w0 : ℚ) (i : TickInput) (s : Globals)
    (hm : s.mode = STARTUPMODE) (hon : s.inverter_on = true)
    (hloc : s.local_mode = InverterMode.FOLLOWING)
    (hnoc : ¬ overcurrentCond (sampleMeasurements i s))
    (hband : ¬ inBandStrict w0 i.omega) :
    (loop_critical_task w0 i s).1.sync_counter = 0 ∧
    (loop_critical_task w0 i s).1.is_net_synchronized = false ∧
    (loop_critical_task w0 i s).1.mode = STARTUPMODE := by
  have hSBm : (boostStage i (sampleMeasurements i s) Effects.none).1.mode
      = STARTUPMODE := by
    rw [boostStage_fst_mode, sampleMeasurements_mode, hm]
  have hSBon : (boostStage i (sampleMeasurements i s) Effects.none).1.inverter_on
      = true := by
    rw [boostStage_fst_inverter_on, sampleMeasurements_inverter_on, hon]
  have hSBloc : (boostStage i (sampleMeasurements i s) Effects.none).1.local_mode
      = InverterMode.FOLLOWING := by
    rw [boostStage_fst_local_mode, sampleMeasurements_local_mode, hloc]
  rw [loop_critical_task_startup w0 i s hm hon hnoc]
  rw [startupRampAndSync_following_outband _ _ _ _ hSBm hSBon hSBloc hband]
  dsimp only
  exact ⟨rfl, rfl, hSBm⟩

theorem startup_following_run (w0 : ℚ) (inp : ℕ → TickInput) (s0 : Globals)
    (hm : s0.mode = STARTUPMODE) (hon : s0.inverter_on = true)
    (hloc : s0.local_mode = InverterMode.FOLLOWING)
    (hsc : s0.sync_counter = 0) (hsy : s0.is_net_synchronized = false)
    (hnoc : ∀ k, ¬ overcurrentCond
       (sampleMeasurements (inp k) (runCritical w0 inp s0 k)))
    (hband : ∀ k, inBandStrict w0 (inp k).omega) :
    ∀ n, n ≤ 2000 →
      (runCritical w0 inp s0 n).mode = STARTUPMODE ∧
      (runCritical w0 inp s0 n).inverter_on = true ∧
      (runCritical w0 inp s0 n).local_mode = InverterMode.FOLLOWING ∧
      (runCritical w0 inp s0 n).sync_counter = n ∧
      (runCritical w0 inp s0 n).is_net_synchronized = false := by
  intro n
  induction n with
  | zero => exact fun _ => ⟨hm, hon, hloc, hsc, hsy⟩
  | succ n ih =>
    intro hn
    obtain ⟨ihm, ihon, ihloc, ihsc, ihsy⟩ := ih (by omega)
    have step := startup_tick_inband w0 (inp n) (runCritical w0 inp s0 n)
      ihm ihon ihloc (hnoc n) (hband n)
    have hle : (runCritical w0 inp s0 n).sync_counter + 1 ≤ 2000 := by
      rw [ihsc]; omega
    obtain ⟨⟨sm, son, sloc, sma⟩, hlow, _⟩ := step
    obtain ⟨scnt, ssy⟩ := hlow hle
    rw [runCritical_succ]
    refine ⟨sm, son, sloc, ?_, ?_⟩
    · rw [scnt, ihsc]
    · rw [ssy, ihsy]

theorem startup_following_acquires_at_2001 (w0 : ℚ) (inp : ℕ → TickInput)
    (s0 : Globals)
    (hm : s0.mode = STARTUPMODE) (hon : s0.inverter_on = true)
    (hloc : s0.local_mode = InverterMode.FOLLOWING)
    (hsc : s0.sync_counter = 0) (hsy : s0.is_net_synchronized = false)
    (hnoc : ∀ k, ¬ overcurrentCond
       (sampleMeasurements (inp k) (runCritical w0 inp s0 k)))
    (hband : ∀ k, inBandStrict w0 (inp k).omega) :
    (runCritical w0 inp s0 2001).is_net_synchronized = true ∧
    (runCritical w0 inp s0 2001).sync_counter = 0 := by
  obtain ⟨ihm, ihon, ihloc, ihsc, ihsy⟩ :=
    startup_following_run w0 inp s0 hm hon hloc hsc hsy hnoc hband 2000 le_rfl
  have step := startup_tick_inband w0 (inp 2000) (runCritical w0 inp s0 2000)
    ihm ihon ihloc (hnoc 2000) (hband 2000)
  have hgt : (runCritical w0 inp s0 2000).sync_counter + 1 > 2000 := by
    rw [ihsc]; omega
  obtain ⟨_, _, hhigh⟩ := step
  obtain ⟨scnt, ssy⟩ := hhigh hgt
  rw [show (2001 : ℕ) = 2000 + 1 from rfl, runCritical_succ]
  exact ⟨ssy, scnt⟩


/-! ## Claim C4 (temporal): lock acquisition in Startup/following.
The counter is incremented and then compared with `> 2000` (main.cpp lines
514-518), so the flag is first set on the 2001st consecutive in-band tick;
2000 in-band ticks never set it.  Out-of-band ticks reset counter and flag. -/

/-- C4 counterexample: starting from a zero counter, 2000 consecutive
in-band ticks leave `is_net_synchronized = false` (counter = 2000), although
the claim says a run of exactly 2000 in-band ticks sets it. -/
theorem C4_counterexample :
    (runCritical 100 (fun _ => inBandInput) startupFollowingState 2000).is_net_synchronized
      = false ∧
    (runCritical 100 (fun _ => inBandInput) startupFollowingState 2000).sync_counter
      = 2000 := by
  have h := startup_following_run 100 (fun _ => inBandInput) startupFollowingState
    rfl rfl rfl rfl rfl (fun k => inBandInput_no_oc _)
    (fun k => by norm_num [inBandStrict, sync_power_tolerance, inBandInput])
    2000 le_rfl
  exact ⟨h.2.2.2.2, h.2.2.2.1⟩

/-- C4 (corrected): in Startup mode, following sub-mode, with the inverter
enabled and no overcurrent: 2000 or fewer consecutive in-band ticks from a
zero counter never set `is_net_synchronized` (the counter equals the tick
count); the 2001st consecutive in-band tick sets it and resets the counter to
zero; and any out-of-band tick resets the counter to zero and clears
`is_net_synchronized`. -/
theorem C4_lock_acquire_amended (w0 : ℚ) (inp : ℕ → TickInput) (s0 : Globals)
    (hm : s0.mode = STARTUPMODE) (hon : s0.inverter_on = true)
    (hloc : s0.local_mode = InverterMode.FOLLOWING)
    (hsc : s0.sync_counter = 0) (hsy : s0.is_net_synchronized = false)
    (hnoc : ∀ k, ¬ overcurrentCond
       (sampleMeasurements (inp k) (runCritical w0 inp s0 k)))
    (hband : ∀ k, inBandStrict w0 (inp k).omega) :
    (∀ n, n ≤ 2000 →
       (runCritical w0 inp s0 n).sync_counter = n ∧
       (runCritical w0 inp s0 n).is_net_synchronized = false) ∧
    ((runCritical w0 inp s0 2001).is_net_synchronized = true ∧
     (runCritical w0 inp s0 2001).sync_counter = 0) ∧
    (∀ (j : TickInput) (t : Globals), t.mode = STARTUPMODE →
       t.inverter_on = true → t.local_mode = InverterMode.FOLLOWING →
       ¬ overcurrentCond (sampleMeasurements j t) → ¬ inBandStrict w0 j.omega →
       (loop_critical_task w0 j t).1.sync_counter = 0 ∧
       (loop_critical_task w0 j t).1.is_net_synchronized = false) := by
  refine ⟨fun n hn => ?_, ?_, fun j t htm hton htloc htnoc htband => ?_⟩
  · have h := startup_following_run w0 inp s0 hm hon hloc hsc hsy hnoc hband n hn
    exact ⟨h.2.2.2.1, h.2.2.2.2⟩
  · exact startup_following_acquires_at_2001 w0 inp s0 hm hon hloc hsc hsy hnoc hband
  · have h := startup_tick_outband w0 j t htm hton htloc htnoc htband
    exact ⟨h.1, h.2.1⟩

/-- C4 witness: concrete run with the frequency pinned at nominal — after 5
ticks the counter is 5 and the flag still false; after 2001 ticks the flag is
set and the counter cleared; one out-of-band tick resets both. -/
theorem C4_witness :
    ((runCritical 100 (fun _ => inBandInput) startupFollowingState 5).sync_counter = 5 ∧
     (runCritical 100 (fun _ => inBandInput) startupFollowingState 5).is_net_synchronized
       = false) ∧
    ((runCritical 100 (fun _ => inBandInput) startupFollowingState 2001).is_net_synchronized
       = true ∧
     (runCritical 100 (fun _ => inBandInput) startupFollowingState 2001).sync_counter
       = 0) ∧
    ((loop_critical_task 100 outBandInput startupFollowingState).1.sync_counter = 0 ∧
     (loop_critical_task 100 outBandInput startupFollowingState).1.is_net_synchronized
       = false) := by
  have H := C4_lock_acquire_amended 100 (fun _ => inBandInput) startupFollowingState
    rfl rfl rfl rfl rfl (fun k => inBandInput_no_oc _)
    (fun k => by norm_num [inBandStrict, sync_power_tolerance, inBandInput])
  exact ⟨H.1 5 (by omega), H.2.1,
    H.2.2 outBandInput startupFollowingState rfl rfl rfl
      (outBandInput_no_oc _)
      (by norm_num [inBandStrict, sync_power_tolerance, outBandInput])⟩


/-! ## Helper lemmas: gateway frame conditions and Power/following energizing -/

theorem applyModeRequest_mode (s : Globals) :
    (applyModeRequest s).mode = s.mode := by
  unfold applyModeRequest; split_ifs <;> rfl

theorem applyModeRequest_pwm_enable (s : Globals) :
    (applyModeRequest s).pwm_enable = s.pwm_enable := by
  unfold applyModeRequest; split_ifs <;> rfl

theorem applyModeRequest_power_counter (s : Globals) :
    (applyModeRequest s).power_counter = s.power_counter := by
  unfold applyModeRequest; split_ifs <;> rfl

theorem applyModeRequest_boost_pwm_enable (s : Globals) :
    (applyModeRequest s).boost_pwm_enable = s.boost_pwm_enable := by
  unfold applyModeRequest; split_ifs <;> rfl

theorem applyReferenceClamp_mode (s : Globals) :
    (applyReferenceClamp s).mode = s.mode := by
  unfold applyReferenceClamp; split_ifs <;> rfl

theorem applyReferenceClamp_pwm_enable (s : Globals) :
    (applyReferenceClamp s).pwm_enable = s.pwm_enable := by
  unfold applyReferenceClamp; split_ifs <;> rfl

theorem applyReferenceClamp_power_counter (s : Globals) :
    (applyReferenceClamp s).power_counter = s.power_counter := by
  unfold applyReferenceClamp; split_ifs <;> rfl

theorem applyReferenceClamp_boost_pwm_enable (s : Globals) :
    (applyReferenceClamp s).boost_pwm_enable = s.boost_pwm_enable := by
  unfold applyReferenceClamp; split_ifs <;> rfl

theorem applyScopeFlags_mode (s : Globals) :
    (applyScopeFlags s).mode = s.mode := by
  simp only [applyScopeFlags]; split_ifs <;> rfl

theorem applyScopeFlags_pwm_enable (s : Globals) :
    (applyScopeFlags s).pwm_enable = s.pwm_enable := by
  simp only [applyScopeFlags]; split_ifs <;> rfl

theorem applyScopeFlags_power_counter (s : Globals) :
    (applyScopeFlags s).power_counter = s.power_counter := by
  simp only [applyScopeFlags]; split_ifs <;> rfl

theorem applyScopeFlags_boost_pwm_enable (s : Globals) :
    (applyScopeFlags s).boost_pwm_enable = s.boost_pwm_enable := by
  simp only [applyScopeFlags]; split_ifs <;> rfl

theorem applyReferenceClamp_inverter_on (s : Globals) :
    (applyReferenceClamp s).inverter_on = s.inverter_on := by
  unfold applyReferenceClamp; split_ifs <;> rfl

theorem applyScopeFlags_inverter_on (s : Globals) :
    (applyScopeFlags s).inverter_on = s.inverter_on := by
  simp only [applyScopeFlags]; split_ifs <;> rfl

theorem applyReferenceClamp_local_mode (s : Globals) :
    (applyReferenceClamp s).local_mode = s.local_mode := by
  unfold applyReferenceClamp; split_ifs <;> rfl

theorem applyScopeFlags_local_mode (s : Globals) :
    (applyScopeFlags s).local_mode = s.local_mode := by
  simp only [applyScopeFlags]; split_ifs <;> rfl

theorem app_apply_command_mode (s : Globals) :
    (app_apply_command s).mode = s.mode := by
  unfold app_apply_command
  rw [applyScopeFlags_mode, applyReferenceClamp_mode]
  show (applyModeRequest s).mode = s.mode
  rw [applyModeRequest_mode]

theorem app_apply_command_pwm_enable (s : Globals) :
    (app_apply_command s).pwm_enable = s.pwm_enable := by
  unfold app_apply_command
  rw [applyScopeFlags_pwm_enable, applyReferenceClamp_pwm_enable]
  show (applyModeRequest s).pwm_enable = s.pwm_enable
  rw [applyModeRequest_pwm_enable]

theorem app_apply_command_power_counter (s : Globals) :
    (app_apply_command s).power_counter = s.power_counter := by
  unfold app_apply_command
  rw [applyScopeFlags_power_counter, applyReferenceClamp_power_counter]
  show (applyModeRequest s).power_counter = s.power_counter
  rw [applyModeRequest_power_counter]

theorem app_apply_command_local_mode (s : Globals) :
    (app_apply_command s).local_mode = s.local_mode := by
  unfold app_apply_command
  rw [applyScopeFlags_local_mode, applyReferenceClamp_local_mode]
  show (applyModeRequest s).local_mode = s.local_mode
  rw [applyModeRequest_local_mode]

theorem app_apply_command_inverter_on (s : Globals) :
    (app_apply_command s).inverter_on = s.user_cmd.inverter_on := by
  unfold app_apply_command
  rw [applyScopeFlags_inverter_on, applyReferenceClamp_inverter_on]
  show (applyModeRequest s).user_cmd.inverter_on = s.user_cmd.inverter_on
  rw [applyModeRequest_user_cmd]

theorem powerModeRegulation_notOn (w0 : ℚ) (i : TickInput) (s : Globals)
    (e : Effects) (h : s.inverter_on = false) :
    powerModeRegulation w0 i s e = (s, e) := by
  unfold powerModeRegulation
  rw [if_neg (by simp [h])]

theorem criticalTail_power_notOn (w0 : ℚ) (i : TickInput) (X : Globals)
    (E : Effects) (hXm : X.mode = POWERMODE) (hXoff : X.inverter_on = false) :
    powerModeRegulation w0 i (startupRampAndSync w0 i X E).1
        (startupRampAndSync w0 i X E).2 = (X, E) := by
  rw [startupRampAndSync_notStartup w0 i X E (by rw [hXm]; decide)]
  rw [powerModeRegulation_notOn w0 i X E hXoff]

theorem loop_critical_task_powerOff (w0 : ℚ) (i : TickInput) (s : Globals)
    (hm : s.mode = POWERMODE) (hoff : s.inverter_on = false)
    (hp : s.pwm_enable = true)
    (hnoc : ¬ overcurrentCond (sampleMeasurements i s)) :
    (loop_critical_task w0 i s).1.pwm_enable = false ∧
    (loop_critical_task w0 i s).1.mode = POWERMODE ∧
    (loop_critical_task w0 i s).1.inverter_on = false ∧
    (loop_critical_task w0 i s).1.local_mode = s.local_mode ∧
    (loop_critical_task w0 i s).1.power_counter = s.power_counter := by
  have h1 : (sampleMeasurements i s).mode ≠ IDLEMODE := by
    rw [sampleMeasurements_mode, hm]; decide
  have h2 : (sampleMeasurements i s).mode ≠ ERRORMODE := by
    rw [sampleMeasurements_mode, hm]; decide
  have hSBoff : (boostStage i (sampleMeasurements i s) Effects.none).1.inverter_on
      = false := by
    rw [boostStage_fst_inverter_on, sampleMeasurements_inverter_on, hoff]
  have hSBp : (boostStage i (sampleMeasurements i s) Effects.none).1.pwm_enable
      = true := by
    rw [boostStage_fst_pwm_enable, sampleMeasurements_pwm_enable, hp]
  have hSBm : (boostStage i (sampleMeasurements i s) Effects.none).1.mode
      = POWERMODE := by
    rw [boostStage_fst_mode, sampleMeasurements_mode, hm]
  have hSBl : (boostStage i (sampleMeasurements i s) Effects.none).1.local_mode
      = s.local_mode := by
    rw [boostStage_fst_local_mode, sampleMeasurements_local_mode]
  have hSBpc : (boostStage i (sampleMeasurements i s) Effects.none).1.power_counter
      = s.power_counter := by
    rw [boostStage_fst_power_counter, sampleMeasurements_power_counter]
  simp only [loop_critical_task]
  rw [overcurrentProtection_not _ hnoc]
  rw [stopActuationIfInactive_skip _ _ h1 h2]
  rw [stopInverterIfDisabled_disabled_active _ _ hSBoff hSBp]
  rw [criticalTail_power_notOn w0 i]
  · dsimp only
    exact ⟨rfl, hSBm, hSBoff, hSBl, hSBpc⟩
  · exact hSBm
  · exact hSBoff


theorem power_tick_startcheck (w0 : ℚ) (i : TickInput) (s : Globals)
    (hm : s.mode = POWERMODE) (hon : s.inverter_on = true)
    (hloc : s.local_mode = InverterMode.FOLLOWING)
    (hnoc : ¬ overcurrentCond (sampleMeasurements i s)) :
    (s.pwm_enable = false →
       (loop_critical_task w0 i s).1.power_counter = s.power_counter + 1 ∧
       (s.power_counter + 1 ≤ 2000 →
          (loop_critical_task w0 i s).1.pwm_enable = false ∧
          (loop_critical_task w0 i s).2.startAllCalls = 0) ∧
       (s.power_counter + 1 > 2000 →
          (loop_critical_task w0 i s).1.pwm_enable = true ∧
          (loop_critical_task w0 i s).2.startAllCalls = 1)) ∧
    (s.pwm_enable = true →
       (loop_critical_task w0 i s).1.power_counter = s.power_counter ∧
       (loop_critical_task w0 i s).1.pwm_enable = true ∧
       (loop_critical_task w0 i s).2.startAllCalls = 0) := by
  have hSBm : (boostStage i (sampleMeasurements i s) Effects.none).1.mode
      = POWERMODE := by
    rw [boostStage_fst_mode, sampleMeasurements_mode, hm]
  have hSBon : (boostStage i (sampleMeasurements i s) Effects.none).1.inverter_on
      = true := by
    rw [boostStage_fst_inverter_on, sampleMeasurements_inverter_on, hon]
  have heB : (boostStage i (sampleMeasurements i s) Effects.none).2.startAllCalls
      = 0 := by
    rw [boostStage_snd_startAllCalls]
    rfl
  rw [loop_critical_task_power w0 i s hm hon hnoc]
  dsimp only
  rw [powerModeRegulation_active _ _ _ _ hSBm hSBon]
  have hZl : (powerApplyDuty (powerOffsetUpdate (powerSyncUpdate w0 i
      (boostStage i (sampleMeasurements i s) Effects.none).1))).local_mode
      = InverterMode.FOLLOWING := by
    simp only [powerApplyDuty_local_mode, powerOffsetUpdate_keeps_local_mode,
      powerSyncUpdate_keeps_local_mode, boostStage_fst_local_mode,
      sampleMeasurements_local_mode]
    exact hloc
  have hZp : (powerApplyDuty (powerOffsetUpdate (powerSyncUpdate w0 i
      (boostStage i (sampleMeasurements i s) Effects.none).1))).pwm_enable
      = s.pwm_enable := by
    simp only [powerApplyDuty_pwm_enable, powerOffsetUpdate_keeps_pwm_enable,
      powerSyncUpdate_keeps_pwm_enable, boostStage_fst_pwm_enable,
      sampleMeasurements_pwm_enable]
  have hZpc : (powerApplyDuty (powerOffsetUpdate (powerSyncUpdate w0 i
      (boostStage i (sampleMeasurements i s) Effects.none).1))).power_counter
      = s.power_counter := by
    simp only [powerApplyDuty_power_counter, powerOffsetUpdate_keeps_power_counter,
      powerSyncUpdate_keeps_power_counter, boostStage_fst_power_counter,
      sampleMeasurements_power_counter]
  refine ⟨fun hpF => ?_, fun hpT => ?_⟩
  · have hZpF : (powerApplyDuty (powerOffsetUpdate (powerSyncUpdate w0 i
        (boostStage i (sampleMeasurements i s) Effects.none).1))).pwm_enable
        = false := by rw [hZp, hpF]
    by_cases hc : s.power_counter + 1 > 2000
    · rw [powerStartCheck_start _ _ hZl hZpF (by rw [hZpc]; omega)]
      dsimp only
      refine ⟨by rw [hZpc], fun hle => absurd hc (by omega),
        fun _ => ⟨rfl, by rw [heB]⟩⟩
    · rw [powerStartCheck_count _ _ hZl hZpF (by rw [hZpc]; omega)]
      dsimp only
      refine ⟨by rw [hZpc], fun _ => ⟨by rw [hZp, hpF], heB⟩,
        fun hgt => absurd hgt hc⟩
  · have hno : ¬ ((powerApplyDuty (powerOffsetUpdate (powerSyncUpdate w0 i
        (boostStage i (sampleMeasurements i s) Effects.none).1))).local_mode
          = InverterMode.FOLLOWING ∧
        (powerApplyDuty (powerOffsetUpdate (powerSyncUpdate w0 i
        (boostStage i (sampleMeasurements i s) Effects.none).1))).pwm_enable
          = false) := by
      rw [hZp, hpT]; simp
    rw [powerStartCheck_skip _ _ hno]
    dsimp only
    exact ⟨hZpc, by rw [hZp, hpT], heB⟩

theorem power_following_run (w0 : ℚ) (inp : ℕ → TickInput) (s0 : Globals)
    (hm : s0.mode = POWERMODE) (hon : s0.inverter_on = true)
    (hloc : s0.local_mode = InverterMode.FOLLOWING)
    (hpwm : s0.pwm_enable = false) (hpc : s0.power_counter = 0)
    (hnoc : ∀ k, ¬ overcurrentCond
       (sampleMeasurements (inp k) (runCritical w0 inp s0 k)))
    (hband : ∀ k, inBandClosed w0 (inp k).omega) :
    ∀ n, n ≤ 2000 →
      (runCritical w0 inp s0 n).mode = POWERMODE ∧
      (runCritical w0 inp s0 n).inverter_on = true ∧
      (runCritical w0 inp s0 n).local_mode = InverterMode.FOLLOWING ∧
      (runCritical w0 inp s0 n).pwm_enable = false ∧
      (runCritical w0 inp s0 n).power_counter = n := by
  intro n
  induction n with
  | zero => exact fun _ => ⟨hm, hon, hloc, hpwm, hpc⟩
  | succ n ih =>
    intro hn
    obtain ⟨ihm, ihon, ihloc, ihpwm, ihpc⟩ := ih (by omega)
    have hsync := power_tick_sync_transition w0 (inp n)
      (runCritical w0 inp s0 n) ihm ihon (hnoc n)
    have hmode := (hsync.2.2.2.2 (hband n)).2.2.1
    have hstart := (power_tick_startcheck w0 (inp n) (runCritical w0 inp s0 n)
      ihm ihon ihloc (hnoc n)).1 ihpwm
    have hpwm1 := (hstart.2.1 (by rw [ihpc]; omega)).1
    rw [runCritical_succ]
    refine ⟨hmode, hsync.1, ?_, hpwm1, ?_⟩
    · rw [hsync.2.1, ihloc]
    · rw [hstart.1, ihpc]

theorem power_following_starts_at_2001 (w0 : ℚ) (inp : ℕ → TickInput)
    (s0 : Globals)
    (hm : s0.mode = POWERMODE) (hon : s0.inverter_on = true)
    (hloc : s0.local_mode = InverterMode.FOLLOWING)
    (hpwm : s0.pwm_enable = false) (hpc : s0.power_counter = 0)
    (hnoc : ∀ k, ¬ overcurrentCond
       (sampleMeasurements (inp k) (runCritical w0 inp s0 k)))
    (hband : ∀ k, inBandClosed w0 (inp k).omega) :
    (loop_critical_task w0 (inp 2000)
        (runCritical w0 inp s0 2000)).2.startAllCalls = 1 ∧
    (loop_critical_task w0 (inp 2000)
        (runCritical w0 inp s0 2000)).1.pwm_enable = true ∧
    (loop_critical_task w0 (inp 2000)
        (runCritical w0 inp s0 2000)).1.power_counter = 2001 ∧
    (loop_critical_task w0 (inp 2000)
        (runCritical w0 inp s0 2000)).1.mode = POWERMODE ∧
    (loop_critical_task w0 (inp 2000)
        (runCritical w0 inp s0 2000)).1.inverter_on = true ∧
    (loop_critical_task w0 (inp 2000)
        (runCritical w0 inp s0 2000)).1.local_mode = InverterMode.FOLLOWING := by
  obtain ⟨ihm, ihon, ihloc, ihpwm, ihpc⟩ :=
    power_following_run w0 inp s0 hm hon hloc hpwm hpc hnoc hband 2000 le_rfl
  have hsync := power_tick_sync_transition w0 (inp 2000)
    (runCritical w0 inp s0 2000) ihm ihon (hnoc 2000)
  have hmode := (hsync.2.2.2.2 (hband 2000)).2.2.1
  have hstart := (power_tick_startcheck w0 (inp 2000) (runCritical w0 inp s0 2000)
    ihm ihon ihloc (hnoc 2000)).1 ihpwm
  obtain ⟨hpw, hsa⟩ := hstart.2.2 (by rw [ihpc]; omega)
  refine ⟨hsa, hpw, ?_, hmode, hsync.1, ?_⟩
  · rw [hstart.1, ihpc]
  · rw [hsync.2.1, ihloc]

theorem setUserCmd_mode (s : Globals) (c : Command) :
    ({ s with user_cmd := c } : Globals).mode = s.mode := rfl

theorem setUserCmd_pwm_enable (s : Globals) (c : Command) :
    ({ s with user_cmd := c } : Globals).pwm_enable = s.pwm_enable := rfl

theorem setUserCmd_power_counter (s : Globals) (c : Command) :
    ({ s with user_cmd := c } : Globals).power_counter = s.power_counter := rfl

theorem setUserCmd_local_mode (s : Globals) (c : Command) :
    ({ s with user_cmd := c } : Globals).local_mode = s.local_mode := rfl

theorem setUserCmd_user_cmd (s : Globals) (c : Command) :
    ({ s with user_cmd := c } : Globals).user_cmd = c := rfl

theorem c6reentry_eq : c6reentry
    = app_apply_command { c6afterOff with user_cmd := c6cmdOn } := rfl

theorem c6afterFirstStart_eq : c6afterFirstStart
    = (loop_critical_task 100 inBandInput
        (runCritical 100 (fun _ => inBandInput)
          powerFollowingEntryState 2000)).1 := by
  show runCritical 100 (fun _ => inBandInput) powerFollowingEntryState 2001 = _
  rw [show (2001 : ℕ) = 2000 + 1 from rfl, runCritical_succ]

theorem c6afterOff_eq : c6afterOff
    = (loop_critical_task 100 inBandInput
        (app_apply_command
          { c6afterFirstStart with user_cmd := c6cmdOff })).1 := rfl

/-- C6 counterexample: the spec promises a 2000-tick energizing delay for
EVERY entry into Power/following closed-loop regulation, but `power_counter`
is never reset.  After a first complete energizing sequence (2001 in-band
ticks), switching the inverter off and back on through the command gateway
re-enters regulation with the stale counter at 2001, and the very first tick
of the second entry already starts the legs. -/
theorem C6_counterexample :
    c6afterFirstStart.pwm_enable = true ∧
    c6afterFirstStart.power_counter = 2001 ∧
    c6reentry.mode = POWERMODE ∧
    c6reentry.local_mode = InverterMode.FOLLOWING ∧
    c6reentry.inverter_on = true ∧
    c6reentry.pwm_enable = false ∧
    c6reentry.power_counter = 2001 ∧
    (loop_critical_task 100 inBandInput c6reentry).2.startAllCalls = 1 ∧
    (loop_critical_task 100 inBandInput c6reentry).1.pwm_enable = true := by
  have H := power_following_starts_at_2001 100 (fun _ => inBandInput)
    powerFollowingEntryState rfl rfl rfl rfl rfl
    (fun k => inBandInput_no_oc _)
    (fun k => by norm_num [inBandClosed, sync_power_tolerance, inBandInput])
  have hA1 : c6afterFirstStart.pwm_enable = true := by
    rw [c6afterFirstStart_eq]; exact H.2.1
  have hA2 : c6afterFirstStart.power_counter = 2001 := by
    rw [c6afterFirstStart_eq]; exact H.2.2.1
  have hA3 : c6afterFirstStart.mode = POWERMODE := by
    rw [c6afterFirstStart_eq]; exact H.2.2.2.1
  have hA4 : c6afterFirstStart.local_mode = InverterMode.FOLLOWING := by
    rw [c6afterFirstStart_eq]; exact H.2.2.2.2.2
  have hGm : (app_apply_command
      { c6afterFirstStart with user_cmd := c6cmdOff }).mode = POWERMODE := by
    rw [app_apply_command_mode, setUserCmd_mode, hA3]
  have hGoff : (app_apply_command
      { c6afterFirstStart with user_cmd := c6cmdOff }).inverter_on = false := by
    rw [app_apply_command_inverter_on, setUserCmd_user_cmd]
    rfl
  have hGp : (app_apply_command
      { c6afterFirstStart with user_cmd := c6cmdOff }).pwm_enable = true := by
    rw [app_apply_command_pwm_enable, setUserCmd_pwm_enable, hA1]
  have hGl : (app_apply_command
      { c6afterFirstStart with user_cmd := c6cmdOff }).local_mode
      = InverterMode.FOLLOWING := by
    rw [app_apply_command_local_mode, setUserCmd_local_mode, hA4]
  have hGpc : (app_apply_command
      { c6afterFirstStart with user_cmd := c6cmdOff }).power_counter
      = 2001 := by
    rw [app_apply_command_power_counter, setUserCmd_power_counter, hA2]
  have hOff := loop_critical_task_powerOff 100 inBandInput
    (app_apply_command { c6afterFirstStart with user_cmd := c6cmdOff })
    hGm hGoff hGp (inBandInput_no_oc _)
  have hRm : c6reentry.mode = POWERMODE := by
    rw [c6reentry_eq, app_apply_command_mode, setUserCmd_mode, c6afterOff_eq,
      hOff.2.1]
  have hRon : c6reentry.inverter_on = true := by
    rw [c6reentry_eq, app_apply_command_inverter_on, setUserCmd_user_cmd]
    rfl
  have hRp : c6reentry.pwm_enable = false := by
    rw [c6reentry_eq, app_apply_command_pwm_enable, setUserCmd_pwm_enable,
      c6afterOff_eq, hOff.1]
  have hRl : c6reentry.local_mode = InverterMode.FOLLOWING := by
    rw [c6reentry_eq, app_apply_command_local_mode, setUserCmd_local_mode,
      c6afterOff_eq, hOff.2.2.2.1]
    exact hGl
  have hRpc : c6reentry.power_counter = 2001 := by
    rw [c6reentry_eq, app_apply_command_power_counter, setUserCmd_power_counter,
      c6afterOff_eq, hOff.2.2.2.2]
    exact hGpc
  have hTick := (power_tick_startcheck 100 inBandInput c6reentry
    hRm hRon hRl (inBandInput_no_oc _)).1 hRp
  have hStart := hTick.2.2 (by rw [hRpc]; omega)
  exact ⟨hA1, hA2, hRm, hRl, hRon, hRp, hRpc, hStart.2, hStart.1⟩

/-- C6 (amended): in Power/following with the inverter enabled, starting from
a FRESH `power_counter = 0`, the legs stay off for 2000 full ticks and are
started exactly once on the 2001st tick; at the single-tick level the counter
is incremented whenever the PWM is inactive and the legs are started exactly
when the incremented counter exceeds 2000 — the counter is never reset on
entry, so a stale counter immediately energizes a re-entry — and once the PWM
is active no further start is issued. -/
theorem C6_energize_delay_amended (w0 : ℚ) (inp : ℕ → TickInput) (s0 : Globals)
    (hm : s0.mode = POWERMODE) (hon : s0.inverter_on = true)
    (hloc : s0.local_mode = InverterMode.FOLLOWING)
    (hpwm : s0.pwm_enable = false) (hpc : s0.power_counter = 0)
    (hnoc : ∀ k, ¬ overcurrentCond
       (sampleMeasurements (inp k) (runCritical w0 inp s0 k)))
    (hband : ∀ k, inBandClosed w0 (inp k).omega) :
    (∀ n, n ≤ 2000 →
       (runCritical w0 inp s0 n).pwm_enable = false ∧
       (runCritical w0 inp s0 n).power_counter = n) ∧
    ((loop_critical_task w0 (inp 2000)
        (runCritical w0 inp s0 2000)).2.startAllCalls = 1 ∧
     (loop_critical_task w0 (inp 2000)
        (runCritical w0 inp s0 2000)).1.pwm_enable = true) ∧
    (∀ (j : TickInput) (t : Globals), t.mode = POWERMODE →
       t.inverter_on = true → t.local_mode = InverterMode.FOLLOWING →
       ¬ overcurrentCond (sampleMeasurements j t) → t.pwm_enable = false →
       (loop_critical_task w0 j t).1.power_counter = t.power_counter + 1 ∧
       (t.power_counter + 1 > 2000 →
          (loop_critical_task w0 j t).2.startAllCalls = 1 ∧
          (loop_critical_task w0 j t).1.pwm_enable = true) ∧
       (t.power_counter + 1 ≤ 2000 →
          (loop_critical_task w0 j t).2.startAllCalls = 0 ∧
          (loop_critical_task w0 j t).1.pwm_enable = false)) ∧
    (∀ (j : TickInput) (t : Globals), t.mode = POWERMODE →
       t.inverter_on = true → t.local_mode = InverterMode.FOLLOWING →
       ¬ overcurrentCond (sampleMeasurements j t) → t.pwm_enable = true →
       (loop_critical_task w0 j t).2.startAllCalls = 0 ∧
       (loop_critical_task w0 j t).1.power_counter = t.power_counter) := by
  refine ⟨fun n hn => ?_, ?_, fun j t htm hton htloc htnoc htp => ?_,
    fun j t htm hton htloc htnoc htp => ?_⟩
  · have h := power_following_run w0 inp s0 hm hon hloc hpwm hpc hnoc hband n hn
    exact ⟨h.2.2.2.1, h.2.2.2.2⟩
  · have h := power_following_starts_at_2001 w0 inp s0 hm hon hloc hpwm hpc
      hnoc hband
    exact ⟨h.1, h.2.1⟩
  · have h := (power_tick_startcheck w0 j t htm hton htloc htnoc).1 htp
    exact ⟨h.1, fun hgt => ⟨(h.2.2 hgt).2, (h.2.2 hgt).1⟩,
      fun hle => ⟨(h.2.1 hle).2, (h.2.1 hle).1⟩⟩
  · have h := (power_tick_startcheck w0 j t htm hton htloc htnoc).2 htp
    exact ⟨h.2.2, h.1⟩

/-- C6 witness: concrete first entry — after 5 ticks the PWM is still off and
the counter reads 5; the tick after 2000 full ticks starts the legs. -/
theorem C6_witness :
    ((runCritical 100 (fun _ => inBandInput)
        powerFollowingEntryState 5).pwm_enable = false ∧
     (runCritical 100 (fun _ => inBandInput)
        powerFollowingEntryState 5).power_counter = 5) ∧
    ((loop_critical_task 100 inBandInput
        (runCritical 100 (fun _ => inBandInput)
          powerFollowingEntryState 2000)).2.startAllCalls = 1 ∧
     (loop_critical_task 100 inBandInput
        (runCritical 100 (fun _ => inBandInput)
          powerFollowingEntryState 2000)).1.pwm_enable = true) := by
  have H := C6_energize_delay_amended 100 (fun _ => inBandInput)
    powerFollowingEntryState rfl rfl rfl rfl rfl
    (fun k => inBandInput_no_oc _)
    (fun k => by norm_num [inBandClosed, sync_power_tolerance, inBandInput])
  exact ⟨H.1 5 (by omega), H.2.1⟩

theorem rate_limiter_iter_succ (ref rate : ℚ) (n : ℕ) (v : ℚ) :
    rate_limiter_iter ref rate (n + 1) v
      = rate_limiter_iter ref rate n (rate_limiter ref v rate) := rfl

theorem rate_limiter_cases (ref v rate : ℚ) :
    (ref - v > sign_default_tol ∧
       rate_limiter ref v rate = v + Ts * rate) ∨
    (ref - v < -sign_default_tol ∧
       rate_limiter ref v rate = v - Ts * rate) ∨
    (|ref - v| ≤ sign_default_tol ∧ rate_limiter ref v rate = v) := by
  unfold rate_limiter sign
  split_ifs with h1 h2
  · exact Or.inl ⟨h1, by ring⟩
  · exact Or.inr (Or.inl ⟨h2, by ring⟩)
  · exact Or.inr (Or.inr ⟨abs_le.mpr ⟨by linarith, by linarith⟩, by ring⟩)

theorem rate_limiter_gap_step (ref v rate : ℚ) (hr : 0 < rate) :
    |ref - rate_limiter ref v rate|
      ≤ max (|ref - v| - Ts * rate)
          (max sign_default_tol (Ts * rate - sign_default_tol)) := by
  have hstep : 0 < Ts * rate := mul_pos (by norm_num [Ts]) hr
  have htol : (0 : ℚ) < sign_default_tol := by norm_num [sign_default_tol]
  rcases rate_limiter_cases ref v rate with ⟨hc, he⟩ | ⟨hc, he⟩ | ⟨hc, he⟩
  · rw [he, show ref - (v + Ts * rate) = ref - v - Ts * rate from by ring]
    rcases le_or_lt (Ts * rate) (ref - v) with hge | hlt
    · rw [abs_of_nonneg (by linarith), abs_of_pos (by linarith)]
      exact le_max_left _ _
    · calc |ref - v - Ts * rate| = Ts * rate - (ref - v) := by
            rw [abs_of_neg (by linarith)]; ring
        _ ≤ Ts * rate - sign_default_tol := by linarith
        _ ≤ max sign_default_tol (Ts * rate - sign_default_tol) :=
            le_max_right _ _
        _ ≤ _ := le_max_right _ _
  · rw [he, show ref - (v - Ts * rate) = ref - v + Ts * rate from by ring]
    rcases le_or_lt (ref - v) (-(Ts * rate)) with hge | hlt
    · rw [abs_of_nonpos (by linarith), abs_of_neg (by linarith)]
      refine le_trans (le_of_eq (by ring)) (le_max_left _ _)
    · calc |ref - v + Ts * rate| = ref - v + Ts * rate := by
            rw [abs_of_pos (by linarith)]
        _ ≤ Ts * rate - sign_default_tol := by linarith
        _ ≤ max sign_default_tol (Ts * rate - sign_default_tol) :=
            le_max_right _ _
        _ ≤ _ := le_max_right _ _
  · rw [he]
    exact le_trans hc (le_trans (le_max_left _ _) (le_max_right _ _))

theorem rate_limiter_iter_gap (ref rate : ℚ) (hr : 0 < rate) :
    ∀ (n : ℕ) (v : ℚ), |ref - rate_limiter_iter ref rate n v|
      ≤ max (|ref - v| - n * (Ts * rate))
          (max sign_default_tol (Ts * rate - sign_default_tol)) := by
  have hstep : 0 < Ts * rate := mul_pos (by norm_num [Ts]) hr
  intro n
  induction n with
  | zero =>
    intro v
    simp only [rate_limiter_iter, Nat.cast_zero, zero_mul, sub_zero]
    exact le_max_left _ _
  | succ n ih =>
    intro v
    rw [rate_limiter_iter_succ]
    refine le_trans (ih (rate_limiter ref v rate)) ?_
    have hn : (0 : ℚ) ≤ (n : ℚ) := Nat.cast_nonneg n
    have hns : (0 : ℚ) ≤ (n : ℚ) * (Ts * rate) := mul_nonneg hn hstep.le
    rcases max_cases (|ref - rate_limiter ref v rate| - (n : ℚ) * (Ts * rate))
        (max sign_default_tol (Ts * rate - sign_default_tol)) with
      ⟨hm, _⟩ | ⟨hm, _⟩
    · rw [hm]
      rcases le_max_iff.mp (rate_limiter_gap_step ref v rate hr) with hA | hB
      · refine le_trans ?_ (le_max_left _ _)
        push_cast
        linarith
      · refine le_trans ?_ (le_max_right _ _)
        linarith
    · rw [hm]
      exact le_max_right _ _

theorem rate_limiter_upper (ref v rate : ℚ) (hr : 0 < rate)
    (h : v ≤ ref + Ts * rate) :
    rate_limiter ref v rate ≤ ref + Ts * rate := by
  have hstep : 0 < Ts * rate := mul_pos (by norm_num [Ts]) hr
  have htol : (0 : ℚ) < sign_default_tol := by norm_num [sign_default_tol]
  rcases rate_limiter_cases ref v rate with ⟨hc, he⟩ | ⟨hc, he⟩ | ⟨hc, he⟩ <;>
    rw [he] <;> linarith

theorem rate_limiter_lower (ref v rate : ℚ) (hr : 0 < rate)
    (h : ref - Ts * rate ≤ v) :
    ref - Ts * rate ≤ rate_limiter ref v rate := by
  have hstep : 0 < Ts * rate := mul_pos (by norm_num [Ts]) hr
  have htol : (0 : ℚ) < sign_default_tol := by norm_num [sign_default_tol]
  rcases rate_limiter_cases ref v rate with ⟨hc, he⟩ | ⟨hc, he⟩ | ⟨hc, he⟩ <;>
    rw [he] <;> linarith

theorem rate_limiter_iter_upper (ref rate : ℚ) (hr : 0 < rate) :
    ∀ (n : ℕ) (v : ℚ), v ≤ ref + Ts * rate →
      rate_limiter_iter ref rate n v ≤ ref + Ts * rate := by
  intro n
  induction n with
  | zero => intro v h; exact h
  | succ n ih =>
    intro v h
    rw [rate_limiter_iter_succ]
    exact ih _ (rate_limiter_upper ref v rate hr h)

theorem rate_limiter_iter_lower (ref rate : ℚ) (hr : 0 < rate) :
    ∀ (n : ℕ) (v : ℚ), ref - Ts * rate ≤ v →
      ref - Ts * rate ≤ rate_limiter_iter ref rate n v := by
  intro n
  induction n with
  | zero => intro v h; exact h
  | succ n ih =>
    intro v h
    rw [rate_limiter_iter_succ]
    exact ih _ (rate_limiter_lower ref v rate hr h)

/-- C7 counterexample: with `target = 1/2`, `v0 = 0`, `rate = 3000` the step
is `Ts * 3000 = 3/10` and the promised bound is `ceil((1/2)/(3/10)) = 2`
ticks, but after 2 ticks the iterate reads `3/5`, not the target — and the
two single-call equations show it oscillates between `3/10` and `3/5`
forever, so it NEVER reaches the target exactly. -/
theorem C7_counterexample :
    Ts * 3000 = 3 / 10 ∧
    ⌈|(1 / 2 : ℚ) - 0| / (Ts * 3000)⌉ = 2 ∧
    rate_limiter_iter (1 / 2) 3000 2 0 = 3 / 5 ∧
    rate_limiter_iter (1 / 2) 3000 2 0 ≠ 1 / 2 ∧
    rate_limiter (1 / 2) (3 / 5) 3000 = 3 / 10 ∧
    rate_limiter (1 / 2) (3 / 10) 3000 = 3 / 5 := by
  refine ⟨by norm_num [Ts],
    by
      rw [show |(1 / 2 : ℚ) - 0| = 1 / 2 from by norm_num,
        show Ts * (3000 : ℚ) = 3 / 10 from by norm_num [Ts],
        Int.ceil_eq_iff]
      constructor <;> norm_num,
    ?_, ?_, ?_, ?_⟩ <;>
    norm_num [rate_limiter_iter, rate_limiter, sign, Ts, sign_default_tol]

/-- C7 (amended): each call adds exactly `Ts * rate * sign(target - current)`
(the claimed per-call formula, with the `1e-3` deadband), so the value moves
by at most one step per call and is frozen once within the deadband; the
iterate does NOT reach the target in general — instead its gap shrinks by one
step per tick until it is absorbed in the band
`max tol (step - tol)` — and it never leaves `[target - step, target + step]`
once inside (no overshoot by more than one step). -/
theorem C7_rate_limiter_amended (ref v rate : ℚ) (hr : 0 < rate) :
    rate_limiter ref v rate
      = v + Ts * rate * sign (ref - v) sign_default_tol ∧
    |rate_limiter ref v rate - v| ≤ Ts * rate ∧
    (|ref - v| ≤ sign_default_tol → rate_limiter ref v rate = v) ∧
    (∀ n : ℕ, |ref - rate_limiter_iter ref rate n v|
        ≤ max (|ref - v| - n * (Ts * rate))
            (max sign_default_tol (Ts * rate - sign_default_tol))) ∧
    (v ≤ ref + Ts * rate →
       ∀ n : ℕ, rate_limiter_iter ref rate n v ≤ ref + Ts * rate) ∧
    (ref - Ts * rate ≤ v →
       ∀ n : ℕ, ref - Ts * rate ≤ rate_limiter_iter ref rate n v) := by
  have hstep : 0 < Ts * rate := mul_pos (by norm_num [Ts]) hr
  refine ⟨rfl, ?_, ?_, fun n => rate_limiter_iter_gap ref rate hr n v,
    fun h n => rate_limiter_iter_upper ref rate hr n v h,
    fun h n => rate_limiter_iter_lower ref rate hr n v h⟩
  · rcases rate_limiter_cases ref v rate with ⟨hc, he⟩ | ⟨hc, he⟩ | ⟨hc, he⟩ <;>
      rw [he]
    · rw [show v + Ts * rate - v = Ts * rate from by ring, abs_of_pos hstep]
    · rw [show v - Ts * rate - v = -(Ts * rate) from by ring, abs_neg,
        abs_of_pos hstep]
    · simp [hstep.le]
  · intro h
    rcases rate_limiter_cases ref v rate with ⟨hc, he⟩ | ⟨hc, he⟩ | ⟨hc, he⟩
    · exact absurd (abs_le.mp h).2 (by linarith)
    · exact absurd (abs_le.mp h).1 (by linarith)
    · exact he

/-- C7 witness: the amended theorem at `target = 1/2`, `v0 = 0`,
`rate = 3000`: the per-call formula holds, the first call evaluates to
`3/10`, and the gap bound holds after one tick. -/
theorem C7_witness :
    (0 : ℚ) < 3000 ∧
    rate_limiter (1 / 2) 0 3000
      = 0 + Ts * 3000 * sign (1 / 2 - 0) sign_default_tol ∧
    rate_limiter (1 / 2) 0 3000 = 3 / 10 ∧
    |(1 / 2 : ℚ) - rate_limiter_iter (1 / 2) 3000 1 0|
      ≤ max (|(1 / 2 : ℚ) - 0| - (1 : ℕ) * (Ts * 3000))
          (max sign_default_tol (Ts * 3000 - sign_default_tol)) := by
  have H := C7_rate_limiter_amended (1 / 2) 0 3000 (by norm_num)
  exact ⟨by norm_num, H.1,
    by norm_num [rate_limiter, sign, Ts, sign_default_tol],
    H.2.2.2.1 1⟩

end MicroInverter
